import Mathlib

/-
Verification of the DM Lab KPI Aggregation & Funnel Analytics Engine.

The definitions below are a shallow embedding of the core computation layer
of the repository (src/Dashboard.jsx, src/utils/migrations.ts,
src/utils/kpiCalculator.ts variants).  JavaScript numbers are modelled by
the rationals (finite doubles; NaN and Infinity inputs are merged with the
"absent" case of Option where a function treats them identically), strings
by String, absent-or-present record fields by Option, and the impure
primitives (crypto.randomUUID / new Date()) by explicit parameters.
-/

namespace DmLab

/-! ## JavaScript primitive semantics -/

/-- JS logical-or specialised to a number result: a nonzero (truthy) number keeps
itself, a zero (falsy) number falls through to the alternative. -/
def jsOr0 (q : ℚ) : ℚ := if q = 0 then 0 else q

/-- JS logical-or on numbers, where the left operand may be absent (undefined). -/
def jsOrNumO (a : Option ℚ) (b : Option ℚ) : Option ℚ :=
  match a with
  | some q => if q = 0 then b else some q
  | none => b

/-- JS logical-or of a possibly-absent string against a string fallback. -/
def jsOrSO (a : Option String) (b : String) : String :=
  match a with
  | some s => if s = "" then b else s
  | none => b

/-- JS logical-or of two strings (the left one wins when nonempty/truthy). -/
def jsOrStr (a b : String) : String := if a = "" then b else a

/-- JS logical-or on natural-number counts (0 is falsy). -/
def natOr (a b : ℕ) : ℕ := if a = 0 then b else a

/-- clampNonNegInt from Dashboard.jsx: Number(value), non-finite becomes 0,
otherwise Math.max(0, Math.floor(n)). -/
def clampNonNegInt (q : ℚ) : ℕ := (max 0 ⌊q⌋).toNat

/-- clampNonNegInt applied to a possibly-absent field (Number(undefined) is NaN,
which the source clamps to 0). -/
def clampNonNegIntO (o : Option ℚ) : ℕ :=
  match o with
  | some q => clampNonNegInt q
  | none => 0

/-- clampNonNegNumber from Dashboard.jsx: non-finite becomes 0, otherwise
Math.max(0, n). -/
def clampNonNegNumber (q : ℚ) : ℚ := max 0 q

/-- The whitespace characters removed by the JS String.prototype.trim of the
source strings (ASCII whitespace; the exotic Unicode space classes are not
reachable from the data this program manipulates). -/
def isJsWs (c : Char) : Bool :=
  c = ' ' || c = '\t' || c = '\n' || c = '\r' || c = '\x0b' || c = '\x0c'

/-- Remove leading JS whitespace from a character list. -/
def trimLeftL (l : List Char) : List Char := l.dropWhile isJsWs

/-- Remove trailing JS whitespace from a character list. -/
def trimRightL (l : List Char) : List Char := (l.reverse.dropWhile isJsWs).reverse

/-- Model of the JS .trim() used throughout the normalizer. -/
def jsTrim (s : String) : String := String.mk (trimRightL (trimLeftL s.data))

/-! ## safeDivide (Dashboard.jsx lines 166-171) -/

/-- safeDivide from Dashboard.jsx: coerce both operands with Number(x) || 0,
return null when the denominator is not positive, the quotient otherwise. -/
def safeDivide (n d : ℚ) : Option ℚ :=
  let nn := jsOr0 n
  let dd := jsOr0 d
  if dd ≤ 0 then none else some (nn / dd)

/-! ## Data model (canonical, post-normalization shapes of Dashboard.jsx) -/

/-- A normalized daily log record.  Count fields are JS numbers (the
normalizer only ever stores clamped naturals in them, but the aggregator
re-clamps defensively, so the field type is kept as ℚ). -/
structure DailyLog where
  id : String
  date : String
  account_id : String
  is_old_leads_lane : Bool
  campaign_tag : String
  notes : String
  experiment_id : String
  variant_id : String
  connection_requests_sent : ℚ
  connections_accepted : ℚ
  permission_messages_sent : ℚ
  permission_seen : ℚ
  permission_positives : ℚ
  offer_messages_sent : ℚ
  offer_seen : ℚ
  offer_or_booking_intent_positives : ℚ
  booked_calls : ℚ
  attended_calls : ℚ
  closed_deals : ℚ
deriving Repr, DecidableEq, Inhabited

/-- Funnel totals as produced by computeAggregates (all sums of clamped
non-negative integers). -/
structure Totals where
  connection_requests_sent : ℕ
  connections_accepted : ℕ
  permission_messages_sent : ℕ
  permission_seen : ℕ
  permission_positives : ℕ
  offer_messages_sent : ℕ
  offer_seen : ℕ
  offer_or_booking_intent_positives : ℕ
  booked_calls : ℕ
  attended_calls : ℕ
  closed_deals : ℕ
deriving Repr, DecidableEq, Inhabited

/-- The all-zero totals record (the literal initial accumulator of
computeAggregates). -/
def zeroTotals : Totals := ⟨0, 0, 0, 0, 0, 0, 0, 0, 0, 0, 0⟩

/-- One step of the accumulation loop of computeAggregates
(Dashboard.jsx lines 559-573). -/
def aggStep (t : Totals) (log : DailyLog) : Totals :=
  { connection_requests_sent :=
      t.connection_requests_sent + clampNonNegInt log.connection_requests_sent
    connections_accepted :=
      t.connections_accepted + clampNonNegInt log.connections_accepted
    permission_messages_sent :=
      t.permission_messages_sent + clampNonNegInt log.permission_messages_sent
    permission_seen := t.permission_seen + clampNonNegInt log.permission_seen
    permission_positives :=
      t.permission_positives + clampNonNegInt log.permission_positives
    offer_messages_sent :=
      t.offer_messages_sent + clampNonNegInt log.offer_messages_sent
    offer_seen := t.offer_seen + clampNonNegInt log.offer_seen
    offer_or_booking_intent_positives :=
      t.offer_or_booking_intent_positives +
        clampNonNegInt log.offer_or_booking_intent_positives
    booked_calls := t.booked_calls + clampNonNegInt log.booked_calls
    attended_calls := t.attended_calls + clampNonNegInt log.attended_calls
    closed_deals := t.closed_deals + clampNonNegInt log.closed_deals }

/-- computeAggregates from Dashboard.jsx (lines 544-576): fold the logs into
the all-zero totals record. -/
def computeAggregates (logs : List DailyLog) : Totals :=
  logs.foldl aggStep zeroTotals

/-! ## KPI calculator (Dashboard.jsx lines 578-664) -/

/-- Raw configured KPI targets on the 0-100 percent scale. -/
structure KpiTargets where
  CR : ℚ
  PRR : ℚ
  ABR : ℚ
  BOOKED_KPI : ℚ
  POSITIVE_TO_ABR : ℚ
  ABR_TO_BOOKED : ℚ
  SEEN_RATE : ℚ
  SHOW_UP_RATE : ℚ
  SALES_CLOSE_RATE : ℚ
deriving Repr, DecidableEq, Inhabited

/-- Targets rescaled to the 0-1 ratio scale (the local target object built at
the top of computeKpis). -/
structure ScaledTargets where
  CR : ℚ
  PRR : ℚ
  ABR : ℚ
  BOOKED_KPI : ℚ
  POSITIVE_TO_ABR : ℚ
  ABR_TO_BOOKED : ℚ
  SEEN_RATE : ℚ
  SHOW_UP_RATE : ℚ
  SALES_CLOSE_RATE : ℚ
deriving Repr, DecidableEq, Inhabited

/-- The four primary funnel ratios (null encodes the JS null of safe division). -/
structure PrimaryKpis where
  CR : Option ℚ
  PRR : Option ℚ
  ABR : Option ℚ
  BOOKED_KPI : Option ℚ
deriving Repr, DecidableEq, Inhabited

/-- The two secondary ratios. -/
structure SecondaryKpis where
  POSITIVE_TO_ABR : Option ℚ
  ABR_TO_BOOKED : Option ℚ
deriving Repr, DecidableEq, Inhabited

/-- The three diagnostic ratios. -/
structure DiagnosticKpis where
  SEEN_RATE : Option ℚ
  SHOW_UP_RATE : Option ℚ
  SCR : Option ℚ
deriving Repr, DecidableEq, Inhabited

/-- Per-metric status strings as computed by computeKpis. -/
structure KpiStatuses where
  CR : String
  PRR : String
  ABR : String
  BOOKED_KPI : String
  POSITIVE_TO_ABR : String
  ABR_TO_BOOKED : String
  SEEN_RATE : String
  SHOW_UP_RATE : String
  SCR : String
deriving Repr, DecidableEq, Inhabited

/-- The full result record of computeKpis. -/
structure KpiResult where
  primary : PrimaryKpis
  secondary : SecondaryKpis
  diagnostics : DiagnosticKpis
  targets : ScaledTargets
  status : KpiStatuses
  bottleneck : String
deriving Repr, DecidableEq, Inhabited

/-- statusFor from Dashboard.jsx (lines 578-583): neutral on a null value,
null target or non-positive target; good / warn (0.9 factor) / bad otherwise. -/
def statusFor (value : Option ℚ) (target : Option ℚ) : String :=
  match value, target with
  | none, _ => "neutral"
  | _, none => "neutral"
  | some v, some t =>
    if t ≤ 0 then "neutral"
    else if v ≥ t then "good"
    else if v ≥ t * (9 / 10) then "warn"
    else "bad"

/-- computeBottleneck from Dashboard.jsx (lines 585-596): null ratios count
as 0, evaluation is top-down first-match. -/
def computeBottleneck (kpis : PrimaryKpis) (targets : ScaledTargets) : String :=
  let booked := kpis.BOOKED_KPI.getD 0
  let abr := kpis.ABR.getD 0
  let prr := kpis.PRR.getD 0
  let cr := kpis.CR.getD 0
  if booked ≥ jsOr0 targets.BOOKED_KPI then "None (scale volume)"
  else if abr ≥ jsOr0 targets.ABR then "Booking stage"
  else if prr ≥ jsOr0 targets.PRR then "Offer stage"
  else if cr ≥ jsOr0 targets.CR then "Permission stage"
  else "Targeting/Profile resonance"

/-- computeKpis from Dashboard.jsx (lines 598-664). -/
def computeKpis (totals : Totals) (targets : KpiTargets) : KpiResult :=
  let target : ScaledTargets :=
    { CR := jsOr0 targets.CR / 100
      PRR := jsOr0 targets.PRR / 100
      ABR := jsOr0 targets.ABR / 100
      BOOKED_KPI := jsOr0 targets.BOOKED_KPI / 100
      POSITIVE_TO_ABR := jsOr0 targets.POSITIVE_TO_ABR / 100
      ABR_TO_BOOKED := jsOr0 targets.ABR_TO_BOOKED / 100
      SEEN_RATE := jsOr0 targets.SEEN_RATE / 100
      SHOW_UP_RATE := jsOr0 targets.SHOW_UP_RATE / 100
      SALES_CLOSE_RATE := jsOr0 targets.SALES_CLOSE_RATE / 100 }
  let CR := safeDivide totals.connections_accepted totals.connection_requests_sent
  let PRR := safeDivide totals.permission_positives totals.permission_messages_sent
  let ABR :=
    safeDivide totals.offer_or_booking_intent_positives totals.permission_messages_sent
  let BOOKED_KPI := safeDivide totals.booked_calls totals.permission_messages_sent
  let POSITIVE_TO_ABR :=
    safeDivide totals.offer_or_booking_intent_positives totals.permission_positives
  let ABR_TO_BOOKED :=
    safeDivide totals.booked_calls totals.offer_or_booking_intent_positives
  let SEEN_RATE := safeDivide totals.permission_seen totals.permission_messages_sent
  let SHOW_UP_RATE := safeDivide totals.attended_calls totals.booked_calls
  let SCR := safeDivide totals.closed_deals totals.attended_calls
  let bottleneck := computeBottleneck ⟨CR, PRR, ABR, BOOKED_KPI⟩ target
  { primary := ⟨CR, PRR, ABR, BOOKED_KPI⟩
    secondary := ⟨POSITIVE_TO_ABR, ABR_TO_BOOKED⟩
    diagnostics := ⟨SEEN_RATE, SHOW_UP_RATE, SCR⟩
    targets := target
    status :=
      { CR := statusFor CR (some target.CR)
        PRR := statusFor PRR (some target.PRR)
        ABR := statusFor ABR (some target.ABR)
        BOOKED_KPI := statusFor BOOKED_KPI (some target.BOOKED_KPI)
        POSITIVE_TO_ABR := statusFor POSITIVE_TO_ABR (some target.POSITIVE_TO_ABR)
        ABR_TO_BOOKED := statusFor ABR_TO_BOOKED (some target.ABR_TO_BOOKED)
        SEEN_RATE := statusFor SEEN_RATE (some target.SEEN_RATE)
        SHOW_UP_RATE := statusFor SHOW_UP_RATE (some target.SHOW_UP_RATE)
        SCR := statusFor SCR (some target.SALES_CLOSE_RATE) }
    bottleneck := bottleneck }

/-! ## Dates (parseISODate, Dashboard.jsx lines 196-201)

A JS Date constructed by new Date(y, m, d) is local midnight of the (rolled
over) civil day; the comparison operators used by filterLogs compare the
underlying timestamps, whose order coincides with the order of the civil day
indices (time-zone offsets are bounded well below one day).  We therefore
model such a Date by its proleptic-Gregorian day index (an integer). -/

/-- Numeric value of a list of decimal digits. -/
def digitsVal (l : List Char) : ℕ :=
  l.foldl (fun a c => a * 10 + (c.toNat - 48)) 0

/-- Parse an unsigned decimal literal (digits, optionally with a fractional
part) the way Number() evaluates it. -/
def parseDec (l : List Char) : Option ℚ :=
  let intPart := l.takeWhile Char.isDigit
  let rest := l.dropWhile Char.isDigit
  match rest with
  | [] => if intPart = [] then none else some (digitsVal intPart)
  | '.' :: frac =>
    if frac.all Char.isDigit ∧ (intPart ≠ [] ∨ frac ≠ []) then
      some ((digitsVal intPart : ℚ) + (digitsVal frac : ℚ) / (10 : ℚ) ^ frac.length)
    else none
  | _ => none

/-- Model of the JS Number() coercion on the strings this program feeds it:
trimmed empty means 0, otherwise an optionally signed decimal literal; any
other string is NaN (none).  (Hex and exponent literals do not occur in the
date strings this conversion is applied to.) -/
def jsNumber (s : String) : Option ℚ :=
  match (jsTrim s).data with
  | [] => some 0
  | '+' :: rest => parseDec rest
  | '-' :: rest => (parseDec rest).map (fun q => -q)
  | l => parseDec l

/-- Split a character list at every dash, the way the JS split method with a
one-character separator does (so an empty string yields one empty part, and
adjacent dashes yield empty parts). -/
def splitOnDash (l : List Char) : List (List Char) :=
  match l with
  | [] => [[]]
  | c :: rest =>
    let r := splitOnDash rest
    if c = '-' then [] :: r
    else
      match r with
      | [] => [[c]]
      | h :: t => (c :: h) :: t

/-- Model of the JS value.split applied with the dash separator. -/
def jsSplitDash (s : String) : List String :=
  (splitOnDash s.data).map String.mk

/-- Truncation toward zero, the ToInteger coercion applied by the Date
constructor to each of its arguments. -/
def jsToInt (q : ℚ) : ℤ := if 0 ≤ q then ⌊q⌋ else -⌊-q⌋

/-- Day index of a proleptic-Gregorian civil date (m in 1..12); the standard
era-based civil-from-days algorithm, day 0 = 1970-01-01. -/
def daysFromCivil (y m d : ℤ) : ℤ :=
  let y1 := if m ≤ 2 then y - 1 else y
  let era := y1.fdiv 400
  let yoe := y1 - era * 400
  let doy := (153 * ((m + 9).emod 12) + 2).fdiv 5 + (d - 1)
  let doe := yoe * 365 + yoe.fdiv 4 - yoe.fdiv 100 + doy
  era * 146097 + doe - 719468

/-- Day index of the JS constructor new Date(year, monthIndex, day): two-digit
years map to 1900+year, out-of-range month indices and days roll over. -/
def jsMakeDate (year monthIndex day : ℚ) : ℤ :=
  let yi := jsToInt year
  let mi := jsToInt monthIndex
  let di := jsToInt day
  let yy := if 0 ≤ yi ∧ yi ≤ 99 then 1900 + yi else yi
  daysFromCivil (yy + mi.fdiv 12) (mi.emod 12 + 1) 1 + (di - 1)

/-- parseISODate from Dashboard.jsx: falsy input is null; split on dashes and
coerce the parts with Number; null unless there are exactly three non-NaN
parts; otherwise new Date(parts[0], parts[1]-1, parts[2]). -/
def parseISODate (value : String) : Option ℤ :=
  if value = "" then none
  else
    match (jsSplitDash value).map jsNumber with
    | [some y, some m, some d] => some (jsMakeDate y (m - 1) d)
    | _ => none

/-- parseISODate applied to a possibly-absent filter bound (parseISODate of
undefined returns null through its falsy-input guard). -/
def parseISODateO (value : Option String) : Option ℤ :=
  match value with
  | some s => parseISODate s
  | none => none

/-! ## Filter engine (filterLogs, Dashboard.jsx lines 520-542) -/

/-- The filter criteria record handed to filterLogs (absent fields are
undefined, i.e. falsy). -/
structure Filters where
  accountId : Option String
  campaignTag : Option String
  onlyOldLeads : Bool
  excludeOldLeads : Bool
  start : Option String
  endDate : Option String
deriving Repr, DecidableEq, Inhabited

/-- The empty criteria object: every field omitted. -/
def noFilters : Filters := ⟨none, none, false, false, none, none⟩

/-- Truthiness of a possibly-absent string. -/
def jsTruthyS (o : Option String) : Bool :=
  match o with
  | some s => s ≠ ""
  | none => false

/-- The string criterion guard of filterLogs:
filters.x && filters.x !== "all" (an absent, empty or "all" criterion does
not restrict), followed by the mismatch test against the log field. -/
def rejectStrCrit (crit : Option String) (field : String) : Bool :=
  jsTruthyS crit && crit.getD "" ≠ "all" && field ≠ crit.getD ""

/-- The body of the filterLogs callback: a log is kept when no criterion
rejects it (each early return false of the source is one conjunct). -/
def filterKeep (startDate endDate : Option ℤ) (filters : Filters) (log : DailyLog) : Bool :=
  let logDate := parseISODate log.date
  !(rejectStrCrit filters.accountId log.account_id) &&
  !(rejectStrCrit filters.campaignTag (jsOrStr log.campaign_tag "")) &&
  !(filters.onlyOldLeads && !log.is_old_leads_lane) &&
  !(!filters.onlyOldLeads && filters.excludeOldLeads && log.is_old_leads_lane) &&
  !(match startDate, logDate with
    | some s, some d => d < s
    | _, _ => false) &&
  !(match endDate, logDate with
    | some e, some d => e < d
    | _, _ => false)

/-- filterLogs from Dashboard.jsx. -/
def filterLogs (logs : List DailyLog) (filters : Filters) : List DailyLog :=
  let startDate := parseISODateO filters.start
  let endDate := parseISODateO filters.endDate
  logs.filter (filterKeep startDate endDate filters)

/-! ## Experiment evaluator (Dashboard.jsx lines 226-245, 714-787) -/

/-- A normalized experiment variant. -/
structure Variant where
  id : String
  name : String
  message : String
  step_type : String
deriving Repr, DecidableEq, Inhabited

/-- A normalized experiment. -/
structure Experiment where
  id : String
  name : String
  status : String
  hypothesis : String
  notes : String
  createdAt : String
  funnel_stage_targeted : String
  primary_metric : String
  required_sample_size_seen : ℕ
  variants : List Variant
deriving Repr, DecidableEq, Inhabited

/-- Weekly goals of an account (clamped non-negative integers). -/
structure Goals where
  connection_requests_sent : ℕ
  permission_messages_sent : ℕ
  booked_calls : ℕ
deriving Repr, DecidableEq, Inhabited

/-- A normalized account. -/
structure Account where
  id : String
  name : String
  goals : Goals
deriving Repr, DecidableEq, Inhabited

/-- Normalized configuration. -/
structure Config where
  autosave : Bool
  excludeOldLeadsFromKpi : Bool
  kpiTargets : KpiTargets
  accounts : List Account
deriving Repr, DecidableEq, Inhabited

/-- primaryMetricForStage from Dashboard.jsx (lines 226-239). -/
def primaryMetricForStage (stage : String) : String :=
  if stage = "CONNECTION" then "CR"
  else if stage = "PERMISSION" then "PRR"
  else if stage = "OFFER" then "ABR"
  else if stage = "BOOKING" then "BOOKED_KPI"
  else "PRR"

/-- requiredSeenForStage from Dashboard.jsx (lines 241-245). -/
def requiredSeenForStage (stage : String) : ℕ :=
  if stage = "PERMISSION" then 60
  else if stage = "OFFER" then 30
  else 0

/-- metricValueFor from Dashboard.jsx (lines 714-727). -/
def metricValueFor (kpis : KpiResult) (metric : String) : Option ℚ :=
  if metric = "CR" then kpis.primary.CR
  else if metric = "PRR" then kpis.primary.PRR
  else if metric = "ABR" then kpis.primary.ABR
  else if metric = "BOOKED_KPI" then kpis.primary.BOOKED_KPI
  else none

/-- getSeenCountForStage from Dashboard.jsx (lines 729-737); note the JS
logical-or fallbacks from the seen count to the corresponding sent count. -/
def getSeenCountForStage (stage : String) (totals : Totals) : ℕ :=
  if stage = "PERMISSION" then
    natOr totals.permission_seen totals.permission_messages_sent
  else if stage = "OFFER" then
    natOr totals.offer_seen totals.offer_messages_sent
  else 0

/-- The per-variant statistics record produced by computeVariantStats. -/
structure VariantStat where
  variant : Variant
  totals : Totals
  kpis : KpiResult
  metricValue : Option ℚ
  seen : ℕ
  required : ℕ
  isValid : Bool
deriving Repr, DecidableEq, Inhabited

/-- computeVariantStats from Dashboard.jsx (lines 739-770). -/
def computeVariantStats (experiment : Experiment) (logs : List DailyLog)
    (filters : Filters) (config : Config) : List VariantStat :=
  let stage := experiment.funnel_stage_targeted
  let primaryMetric := jsOrStr experiment.primary_metric (primaryMetricForStage stage)
  let required := clampNonNegInt (experiment.required_sample_size_seen : ℚ)
  experiment.variants.map (fun variant =>
    let variantLogs := logs.filter (fun log =>
      log.experiment_id = experiment.id ∧ log.variant_id = variant.id)
    let filtered := filterLogs variantLogs
      { filters with excludeOldLeads := config.excludeOldLeadsFromKpi }
    let totals := computeAggregates filtered
    let kpis := computeKpis totals config.kpiTargets
    let metricValue := metricValueFor kpis primaryMetric
    let seen := getSeenCountForStage stage totals
    let isValid := required = 0 ∨ seen ≥ required
    { variant := variant
      totals := totals
      kpis := kpis
      metricValue := metricValue
      seen := seen
      required := required
      isValid := isValid })

/-- The comparison key of the winner reduce: a null metricValue counts as -1. -/
def metricKey (v : VariantStat) : ℚ := v.metricValue.getD (-1)

/-- One step of the winner reduce of computeExperimentStats
(Dashboard.jsx lines 779-783). -/
def winnerStep (best : Option VariantStat) (current : VariantStat) : Option VariantStat :=
  match best with
  | none => some current
  | some b => if metricKey current > metricKey b then some current else some b

/-- The per-experiment statistics record produced by computeExperimentStats. -/
structure ExperimentStat where
  experiment : Experiment
  variantStats : List VariantStat
  primaryMetric : String
  winner : Option VariantStat
deriving Repr, DecidableEq, Inhabited

/-- computeExperimentStats from Dashboard.jsx (lines 772-787). -/
def computeExperimentStats (experiments : List Experiment) (logs : List DailyLog)
    (filters : Filters) (config : Config) : List ExperimentStat :=
  experiments.map (fun experiment =>
    let variantStats := computeVariantStats experiment logs filters config
    let primaryMetric := jsOrStr experiment.primary_metric
      (primaryMetricForStage experiment.funnel_stage_targeted)
    let validVariants := variantStats.filter (fun v => v.isValid)
    let winner := validVariants.foldl winnerStep none
    { experiment := experiment
      variantStats := variantStats
      primaryMetric := primaryMetric
      winner := winner })

/-! ## The camelCase schema generation (src/utils/migrations.ts and the
matching kpiCalculator variant with applyFilters) -/

namespace Migrations

/-- A raw (pre-migration) daily log record: every field the migrator consults,
each possibly absent.  The snake_case field booked_calls occurs in historical
payloads but is never read by this normalizeLog; it is carried here so that
inputs containing it can be expressed. -/
structure RawLog where
  id : Option String
  date : Option String
  experimentId : Option String
  variantId : Option String
  campaignTag : Option String
  campaign : Option String
  tag : Option String
  channel : Option String
  accountId : Option String
  account_id : Option String
  isOldLeadsLane : Option Bool
  isOldLane : Option Bool
  connectionRequestsSent : Option ℚ
  connection_requests_sent : Option ℚ
  connectionsAccepted : Option ℚ
  accepted : Option ℚ
  permissionMessagesSent : Option ℚ
  sent : Option ℚ
  permissionSeen : Option ℚ
  seen : Option ℚ
  permissionPositives : Option ℚ
  positive : Option ℚ
  positiveReplies : Option ℚ
  offerMessagesSent : Option ℚ
  offerSeen : Option ℚ
  offerOrBookingIntentPositives : Option ℚ
  offerPositives : Option ℚ
  calendly : Option ℚ
  calendlySent : Option ℚ
  bookedCalls : Option ℚ
  booked : Option ℚ
  booked_calls : Option ℚ
  attendedCalls : Option ℚ
  attended : Option ℚ
  closedDeals : Option ℚ
  closed : Option ℚ
  notes : Option String
deriving Repr, DecidableEq, Inhabited

/-- An all-absent raw log record. -/
def emptyRawLog : RawLog :=
  ⟨none, none, none, none, none, none, none, none, none, none, none, none,
   none, none, none, none, none, none, none, none, none, none, none, none,
   none, none, none, none, none, none, none, none, none, none, none, none, none⟩

/-- A migrated daily log in the camelCase schema generation.  id, date and
variantId are passed through unchanged by the migrator (so they stay
possibly absent). -/
structure DailyLog where
  id : Option String
  date : Option String
  experimentId : String
  variantId : Option String
  campaignTag : String
  channel : String
  accountId : String
  isOldLeadsLane : Bool
  connectionRequestsSent : ℚ
  connectionsAccepted : ℚ
  permissionMessagesSent : ℚ
  permissionSeen : ℚ
  permissionPositives : ℚ
  offerMessagesSent : ℚ
  offerSeen : ℚ
  offerOrBookingIntentPositives : ℚ
  bookedCalls : ℚ
  attendedCalls : ℚ
  closedDeals : ℚ
  notes : String
deriving Repr, DecidableEq, Inhabited

/-- The nullish-coalescing chain a ?? b (first defined value wins, a defined
0 or empty value is kept). -/
def coalesce (a b : Option ℚ) : Option ℚ :=
  match a with
  | some q => some q
  | none => b

/-- normalizeLog from src/utils/migrations.ts (lines 117-142). -/
def normalizeLog (log : RawLog) (defaultAccountName : String) : DailyLog :=
  let calendlyValue := (coalesce log.calendly log.calendlySent).getD 0
  { id := log.id
    date := log.date
    experimentId := jsOrSO log.experimentId ""
    variantId := log.variantId
    campaignTag := jsOrSO log.campaignTag (jsOrSO log.campaign (jsOrSO log.tag ""))
    channel := jsOrSO log.channel "linkedin"
    accountId := jsOrSO log.accountId (jsOrSO log.account_id defaultAccountName)
    isOldLeadsLane :=
      (match log.isOldLeadsLane with
       | some b => b
       | none => log.isOldLane.getD false)
    connectionRequestsSent :=
      (coalesce log.connectionRequestsSent log.connection_requests_sent).getD 0
    connectionsAccepted := (coalesce log.connectionsAccepted log.accepted).getD 0
    permissionMessagesSent := (coalesce log.permissionMessagesSent log.sent).getD 0
    permissionSeen := (coalesce log.permissionSeen log.seen).getD 0
    permissionPositives :=
      (coalesce log.permissionPositives (coalesce log.positive log.positiveReplies)).getD 0
    offerMessagesSent := log.offerMessagesSent.getD 0
    offerSeen := log.offerSeen.getD 0
    offerOrBookingIntentPositives :=
      (coalesce log.offerOrBookingIntentPositives log.offerPositives).getD
        (if calendlyValue > 0 then calendlyValue else 0)
    bookedCalls := (coalesce log.bookedCalls log.booked).getD 0
    attendedCalls := (coalesce log.attendedCalls log.attended).getD 0
    closedDeals := (coalesce log.closedDeals log.closed).getD 0
    notes := jsOrSO log.notes "" }

/-- An inclusive date range criterion (start / end bounds, each omittable;
the end bound is named stop here because end is reserved). -/
structure DateRange where
  start : Option String
  stop : Option String
deriving Repr, DecidableEq, Inhabited

/-- The LogFilters criteria record of the camelCase kpiCalculator variant. -/
structure LogFilters where
  accountId : Option String
  campaignTag : Option String
  experimentId : Option String
  variantId : Option String
  includeOldLeads : Bool
  dateRange : Option DateRange
deriving Repr, DecidableEq, Inhabited

/-- An all-absent LogFilters record. -/
def emptyLogFilters : LogFilters := ⟨none, none, none, none, false, none⟩

/-- applyFilters from the camelCase kpiCalculator variant (src/unnamed/part_000
lines 63-75).  An undefined filters argument returns the input unfiltered;
otherwise each supplied criterion must match, and old-lane rows are removed
unless includeOldLeads is set. -/
def applyFilters (logs : List DailyLog) (filters : Option LogFilters) : List DailyLog :=
  match filters with
  | none => logs
  | some f =>
    logs.filter (fun log =>
      !(!f.includeOldLeads && log.isOldLeadsLane) &&
      !(jsTruthyS f.accountId && log.accountId ≠ f.accountId.getD "") &&
      !(jsTruthyS f.campaignTag && log.campaignTag ≠ f.campaignTag.getD "") &&
      !(jsTruthyS f.experimentId && log.experimentId ≠ f.experimentId.getD "") &&
      !(jsTruthyS f.variantId && log.variantId ≠ some (f.variantId.getD "")) &&
      !(jsTruthyS (f.dateRange.bind DateRange.start) &&
        (match log.date with
         | some dt => dt < (f.dateRange.bind DateRange.start).getD ""
         | none => false)) &&
      !(jsTruthyS (f.dateRange.bind DateRange.stop) &&
        (match log.date with
         | some dt => (f.dateRange.bind DateRange.stop).getD "" < dt
         | none => false)))

end Migrations

/-! ## Specification-side definitions

These follow the wording of the specification, to be compared with the
definitions embedded from the source. -/

/-- Safe ratio as specified: null exactly when the denominator is not
positive, the exact quotient otherwise. -/
def ratioSpecC2 (n d : ℕ) : Option ℚ :=
  if (d : ℚ) ≤ 0 then none else some ((n : ℚ) / (d : ℚ))

/-- A (possibly null) ratio meets its target when its value, with null read
as 0, is at least the target. -/
def meetsTarget (v : Option ℚ) (t : ℚ) : Prop := v.getD 0 ≥ t

/-- The bottleneck decision procedure as the spec states it: top-down,
first match wins, null ratios read as 0. -/
def bottleneckSpecC3 (kpis : PrimaryKpis) (targets : ScaledTargets) : String :=
  if kpis.BOOKED_KPI.getD 0 ≥ targets.BOOKED_KPI then "None (scale volume)"
  else if kpis.ABR.getD 0 ≥ targets.ABR then "Booking stage"
  else if kpis.PRR.getD 0 ≥ targets.PRR then "Offer stage"
  else if kpis.CR.getD 0 ≥ targets.CR then "Permission stage"
  else "Targeting/Profile resonance"

/-- Status classification exactly as claim C7 states it: null is neutral,
otherwise compare the percentage against the target and nine tenths of it. -/
def statusSpecOrigC7 (T : ℚ) (v : Option ℚ) : String :=
  match v with
  | none => "neutral"
  | some x =>
    if x * 100 ≥ T then "good"
    else if x * 100 ≥ (9 / 10) * T then "warn"
    else "bad"

/-- Status classification as amended: additionally neutral when the
configured target is not positive. -/
def statusSpecC7 (T : ℚ) (v : Option ℚ) : String :=
  match v with
  | none => "neutral"
  | some x =>
    if T ≤ 0 then "neutral"
    else if x * 100 ≥ T then "good"
    else if x * 100 ≥ (9 / 10) * T then "warn"
    else "bad"

/-- The validity denominator exactly as claim C6 states it: the aggregated
permissionSeen for a PERMISSION experiment, offerSeen for OFFER, 0 otherwise. -/
def seenSpecOrigC6 (stage : String) (totals : Totals) : ℕ :=
  if stage = "PERMISSION" then totals.permission_seen
  else if stage = "OFFER" then totals.offer_seen
  else 0

/-- The validity denominator as amended: a zero seen count falls back to the
corresponding sent count (the JS logical-or in getSeenCountForStage). -/
def seenSpecC6 (stage : String) (totals : Totals) : ℕ :=
  if stage = "PERMISSION" then
    if totals.permission_seen > 0 then totals.permission_seen
    else totals.permission_messages_sent
  else if stage = "OFFER" then
    if totals.offer_seen > 0 then totals.offer_seen
    else totals.offer_messages_sent
  else 0

/-- The account criterion of the filter engine, as specified: an absent,
empty or sentinel value restricts nothing, otherwise the log must match. -/
def passAccountC9 (crit : Option String) (log : DailyLog) : Bool :=
  match crit with
  | none => true
  | some a => if a = "" ∨ a = "all" then true else log.account_id = a

/-- The campaign-tag criterion of the filter engine, as specified. -/
def passCampaignC9 (crit : Option String) (log : DailyLog) : Bool :=
  match crit with
  | none => true
  | some a => if a = "" ∨ a = "all" then true else log.campaign_tag = a

/-- The old-leads-lane policy as specified: onlyOldLeads takes precedence and
restricts to old-lane rows; otherwise excludeOldLeads removes them; absent
both, no restriction. -/
def passOldLeadsC9 (onlyOld excludeOld : Bool) (log : DailyLog) : Bool :=
  if onlyOld then log.is_old_leads_lane
  else if excludeOld then !log.is_old_leads_lane
  else true

/-- The inclusive date-range criterion as specified, with unparseable bounds
or log dates restricting nothing. -/
def passDateC9 (start stop : Option String) (log : DailyLog) : Bool :=
  (match parseISODateO start, parseISODate log.date with
   | some s, some d => s ≤ d
   | _, _ => true) &&
  (match parseISODateO stop, parseISODate log.date with
   | some e, some d => d ≤ e
   | _, _ => true)

/-- Number of days of a month of the Gregorian calendar. -/
def daysInMonth (y m : ℤ) : ℤ :=
  if m = 1 ∨ m = 3 ∨ m = 5 ∨ m = 7 ∨ m = 8 ∨ m = 10 ∨ m = 12 then 31
  else if m = 4 ∨ m = 6 ∨ m = 9 ∨ m = 11 then 30
  else if m = 2 then
    if y.emod 4 = 0 ∧ (y.emod 100 ≠ 0 ∨ y.emod 400 = 0) then 29 else 28
  else 0

/-- A string parses as a valid YYYY-MM-DD calendar date (the reading of
claim C10): three dash-separated all-digit components, with the month in
1..12 and the day within the month's length. -/
def validCalendarDateC10 (s : String) : Bool :=
  match jsSplitDash s with
  | [ys, ms, ds] =>
    (ys ≠ "" && ys.data.all Char.isDigit &&
     ms ≠ "" && ms.data.all Char.isDigit &&
     ds ≠ "" && ds.data.all Char.isDigit) &&
    (1 ≤ (digitsVal ms.data : ℤ) && (digitsVal ms.data : ℤ) ≤ 12 &&
     1 ≤ (digitsVal ds.data : ℤ) &&
     (digitsVal ds.data : ℤ) ≤ daysInMonth (digitsVal ys.data) (digitsVal ms.data))
  | _ => false

/-- First defined value of an alias chain (the claim's
first-non-undefined-wins priority). -/
def firstDefined (xs : List (Option ℚ)) : Option ℚ :=
  xs.findSome? id

/-! ## Concrete inputs used by counterexamples and witnesses -/

/-- A daily log with every field zero or empty. -/
def zeroLog : DailyLog :=
  ⟨"", "", "", false, "", "", "", "", 0, 0, 0, 0, 0, 0, 0, 0, 0, 0, 0⟩

/-- Example log A for the aggregation witness. -/
def logExA : DailyLog :=
  { zeroLog with
    id := "a", date := "2024-01-01", account_id := "account_1"
    connection_requests_sent := 100, connections_accepted := 30
    permission_messages_sent := 30, permission_positives := 3
    offer_or_booking_intent_positives := 2, booked_calls := 1 }

/-- Example log B for the aggregation witness. -/
def logExB : DailyLog :=
  { zeroLog with
    id := "b", date := "2024-01-02", account_id := "account_2"
    connection_requests_sent := 40, connections_accepted := 10
    permission_messages_sent := 9, permission_positives := 2
    booked_calls := 2 }

/-- The default KPI targets of Dashboard.jsx (DEFAULT_TARGETS). -/
def defaultTargets : KpiTargets := ⟨30, 8, 4, 3, 50, 66, 0, 0, 0⟩

/-- A configuration with the default targets and the old-leads lane not
excluded from KPIs. -/
def configEx : Config :=
  { autosave := false
    excludeOldLeadsFromKpi := false
    kpiTargets := defaultTargets
    accounts := [⟨"account_1", "Account 1", ⟨0, 0, 0⟩⟩] }

/-- A permission-stage experiment with two variants and a required sample of
60 seen. -/
def expEx : Experiment :=
  { id := "e1", name := "Exp", status := "active", hypothesis := "", notes := ""
    createdAt := "2024-01-01", funnel_stage_targeted := "PERMISSION"
    primary_metric := "PRR", required_sample_size_seen := 60
    variants := [⟨"vA", "Variant A", "", ""⟩, ⟨"vB", "Variant B", "", ""⟩] }

/-- A log attributed to variant vA of expEx: 70 permission messages seen out
of 80 sent, 8 positives. -/
def logVA : DailyLog :=
  { zeroLog with
    id := "la", date := "2024-01-03", account_id := "account_1"
    experiment_id := "e1", variant_id := "vA"
    permission_messages_sent := 80, permission_seen := 70
    permission_positives := 8 }

/-- A log attributed to variant vB of expEx: 65 seen out of 90 sent, 5
positives. -/
def logVB : DailyLog :=
  { zeroLog with
    id := "lb", date := "2024-01-03", account_id := "account_1"
    experiment_id := "e1", variant_id := "vB"
    permission_messages_sent := 90, permission_seen := 65
    permission_positives := 5 }

/-- A log for the C6 counterexample: permission_seen is 0 while 70 permission
messages were sent. -/
def logSeenZero : DailyLog :=
  { zeroLog with
    id := "lz", date := "2024-01-04", account_id := "account_1"
    experiment_id := "e1", variant_id := "vA"
    permission_messages_sent := 70, permission_seen := 0
    permission_positives := 4 }

/-- Totals for the C7 counterexample: a known 0% connection rate. -/
def totalsCrZero : Totals := ⟨10, 0, 0, 0, 0, 0, 0, 0, 0, 0, 0⟩

/-- Targets for the C7 counterexample: the CR target is configured as 0. -/
def targetsCrZero : KpiTargets := ⟨0, 8, 4, 3, 50, 66, 0, 0, 0⟩

/-- An old-leads-lane log in the camelCase schema, for the C9 counterexample. -/
def mLogOld : Migrations.DailyLog :=
  ⟨some "m1", some "2024-01-01", "", none, "", "linkedin", "Account 1", true,
   0, 0, 0, 0, 0, 0, 0, 0, 5, 0, 0, ""⟩

/-- A log whose date string is dash-separated numbers but not a valid
calendar date (month 99, day 99): the JS Date constructor rolls it over to a
real date in 2032. -/
def logBadDate : DailyLog := { zeroLog with id := "bd", date := "2024-99-99" }

/-- A date filter with only an inclusive end bound of 2024-01-02. -/
def filtersEnd : Filters := { noFilters with endDate := some "2024-01-02" }

/-- The legacy-migration scenario record of claim C8:
sent 50, accepted 10, booked 2, calendlySent 0. -/
def rawScenarioC8 : Migrations.RawLog :=
  { Migrations.emptyRawLog with
    sent := some 50, accepted := some 10, booked := some 2
    calendlySent := some 0 }

/-- A raw record carrying only the snake_case booked_calls alias. -/
def rawBookedSnake : Migrations.RawLog :=
  { Migrations.emptyRawLog with booked_calls := some 7 }

/-- A raw record with a defined zero in the first alias of the booked-calls
chain and a later alias carrying 5. -/
def rawZeroBooked : Migrations.RawLog :=
  { Migrations.emptyRawLog with bookedCalls := some 0, booked := some 5 }

/-- A log with an empty date string (which parseISODate rejects). -/
def logNoDate : DailyLog := { zeroLog with id := "nd" }

/-! ## Schema normalizer (normalizeState and friends, Dashboard.jsx
lines 246-413)

The impure primitives of the source (makeId, i.e. crypto.randomUUID, and the
current date used by toISODate(new Date()) / new Date().toISOString()) are
modelled by an explicit environment of replacement strings. -/

/-- The impure inputs of the normalizer: a fresh id and the current date. -/
structure Env where
  freshId : String
  today : String
  nowIso : String
deriving Repr, DecidableEq, Inhabited

/-- Raw weekly goals of an account. -/
structure RawGoals where
  connection_requests_sent : Option ℚ
  permission_messages_sent : Option ℚ
  booked_calls : Option ℚ
deriving Repr, DecidableEq, Inhabited

/-- A raw account record. -/
structure RawAccount where
  id : Option String
  name : Option String
  goals : Option RawGoals
deriving Repr, DecidableEq, Inhabited

/-- Raw KPI targets (fields absent from the stored object fall back to the
defaults through the object-spread merge). -/
structure RawTargets where
  CR : Option ℚ
  PRR : Option ℚ
  ABR : Option ℚ
  BOOKED_KPI : Option ℚ
  POSITIVE_TO_ABR : Option ℚ
  ABR_TO_BOOKED : Option ℚ
  SEEN_RATE : Option ℚ
  SHOW_UP_RATE : Option ℚ
  SALES_CLOSE_RATE : Option ℚ
deriving Repr, DecidableEq, Inhabited

/-- A raw configuration record. -/
structure RawConfig where
  autosave : Option Bool
  excludeOldLeadsFromKpi : Option Bool
  kpiTargets : Option RawTargets
  accounts : Option (List RawAccount)
deriving Repr, DecidableEq, Inhabited

/-- A raw daily log record with every alias field normalizeLog consults. -/
structure RawLog where
  id : Option String
  date : Option String
  account_id : Option String
  accountId : Option String
  is_old_leads_lane : Option Bool
  isOldLeadsLane : Option Bool
  lane : Option String
  campaign_tag : Option String
  tag : Option String
  notes : Option String
  experiment_id : Option String
  experimentId : Option String
  variant_id : Option String
  variantId : Option String
  connection_requests_sent : Option ℚ
  connections_accepted : Option ℚ
  accepted : Option ℚ
  permission_messages_sent : Option ℚ
  sent : Option ℚ
  initiated : Option ℚ
  permission_seen : Option ℚ
  seen : Option ℚ
  mediaSeen : Option ℚ
  permission_positives : Option ℚ
  positive : Option ℚ
  engaged : Option ℚ
  offer_messages_sent : Option ℚ
  offer_seen : Option ℚ
  offer_or_booking_intent_positives : Option ℚ
  calendly : Option ℚ
  booked_calls : Option ℚ
  booked : Option ℚ
  attended_calls : Option ℚ
  closed_deals : Option ℚ
deriving Repr, DecidableEq, Inhabited

/-- A raw experiment variant. -/
structure RawVariant where
  id : Option String
  name : Option String
  message : Option String
  messageText : Option String
  step_type : Option String
  stepType : Option String
deriving Repr, DecidableEq, Inhabited

/-- A raw experiment record. -/
structure RawExperiment where
  id : Option String
  name : Option String
  status : Option String
  hypothesis : Option String
  notes : Option String
  createdAt : Option String
  funnel_stage_targeted : Option String
  stage : Option String
  primary_metric : Option String
  required_sample_size_seen : Option ℚ
  variants : Option (List RawVariant)
  messageText : Option String
  messageLabel : Option String
deriving Repr, DecidableEq, Inhabited

/-- A raw prospect record. -/
structure RawProspect where
  id : Option String
  name : Option String
  linkedin_url : Option String
  linkedinUrl : Option String
  notes : Option String
  account_id : Option String
  accountId : Option String
  is_old_leads_lane : Option Bool
  lane : Option String
  stage : Option String
deriving Repr, DecidableEq, Inhabited

/-- Raw UI preferences. -/
structure RawUi where
  isDark : Option Bool
deriving Repr, DecidableEq, Inhabited

/-- A raw persisted application state. -/
structure RawState where
  config : Option RawConfig
  logs : Option (List RawLog)
  experiments : Option (List RawExperiment)
  prospects : Option (List RawProspect)
  ui : Option RawUi
deriving Repr, DecidableEq, Inhabited

/-- A normalized prospect. -/
structure Prospect where
  id : String
  name : String
  linkedin_url : String
  notes : String
  account_id : String
  is_old_leads_lane : Bool
  stage : String
deriving Repr, DecidableEq, Inhabited

/-- Normalized UI preferences. -/
structure Ui where
  isDark : Bool
deriving Repr, DecidableEq, Inhabited

/-- The normalized application state. -/
structure AppState where
  config : Config
  logs : List DailyLog
  experiments : List Experiment
  prospects : List Prospect
  ui : Ui
deriving Repr, DecidableEq, Inhabited

/-- The values of FUNNEL_STAGES in Dashboard.jsx (lines 50-60). -/
def FUNNEL_STAGE_VALUES : List String :=
  ["REQUESTED", "CONNECTED", "PERMISSION_SENT", "PERMISSION_POSITIVE",
   "OFFER_POSITIVE", "BOOKED", "ATTENDED", "CLOSED", "LOST"]

/-- DEFAULT_ACCOUNTS from Dashboard.jsx (lines 107-126), in raw shape (the
fallback list is fed through the same normalizing map as stored accounts). -/
def DEFAULT_ACCOUNTS : List RawAccount :=
  [{ id := some "account_1", name := some "Account 1",
     goals := some ⟨some 0, some 0, some 0⟩ },
   { id := some "account_2", name := some "Account 2",
     goals := some ⟨some 0, some 0, some 0⟩ }]

/-- The JS Array.prototype.map callback with its index argument. -/
def mapWithIndex {α β : Type} (f : ℕ → α → β) : ℕ → List α → List β
  | _, [] => []
  | i, a :: rest => f i a :: mapWithIndex f (i + 1) rest

/-- The per-account body of normalizeConfig (Dashboard.jsx lines 251-263). -/
def normalizeAccount (index : ℕ) (account : RawAccount) : Account :=
  { id := jsOrSO account.id ("account_" ++ toString (index + 1))
    name := jsTrim (jsOrSO account.name ("Account " ++ toString (index + 1)))
    goals :=
      { connection_requests_sent :=
          clampNonNegIntO (account.goals.bind RawGoals.connection_requests_sent)
        permission_messages_sent :=
          clampNonNegIntO (account.goals.bind RawGoals.permission_messages_sent)
        booked_calls := clampNonNegIntO (account.goals.bind RawGoals.booked_calls) } }

/-- normalizeConfig from Dashboard.jsx (lines 246-286); the kpiTargets merge
spreads the stored targets over DEFAULT_TARGETS. -/
def normalizeConfig (config : Option RawConfig) : Config :=
  let accountsRaw :=
    match config.bind RawConfig.accounts with
    | some (a :: rest) => a :: rest
    | _ => DEFAULT_ACCOUNTS
  let rawT := config.bind RawConfig.kpiTargets
  { autosave := (config.bind RawConfig.autosave).getD false
    excludeOldLeadsFromKpi := (config.bind RawConfig.excludeOldLeadsFromKpi) ≠ some false
    kpiTargets :=
      { CR := clampNonNegNumber ((rawT.bind RawTargets.CR).getD 30)
        PRR := clampNonNegNumber ((rawT.bind RawTargets.PRR).getD 8)
        ABR := clampNonNegNumber ((rawT.bind RawTargets.ABR).getD 4)
        BOOKED_KPI := clampNonNegNumber ((rawT.bind RawTargets.BOOKED_KPI).getD 3)
        POSITIVE_TO_ABR :=
          clampNonNegNumber ((rawT.bind RawTargets.POSITIVE_TO_ABR).getD 50)
        ABR_TO_BOOKED :=
          clampNonNegNumber ((rawT.bind RawTargets.ABR_TO_BOOKED).getD 66)
        SEEN_RATE := clampNonNegNumber ((rawT.bind RawTargets.SEEN_RATE).getD 0)
        SHOW_UP_RATE := clampNonNegNumber ((rawT.bind RawTargets.SHOW_UP_RATE).getD 0)
        SALES_CLOSE_RATE :=
          clampNonNegNumber ((rawT.bind RawTargets.SALES_CLOSE_RATE).getD 0) }
    accounts := mapWithIndex normalizeAccount 0 accountsRaw }

/-- normalizeLog from Dashboard.jsx (lines 288-322). -/
def normalizeLog (env : Env) (defaultAccountId : String) (log : RawLog) : DailyLog :=
  { id := jsOrSO log.id env.freshId
    date := jsOrSO log.date env.today
    account_id := jsOrSO log.account_id (jsOrSO log.accountId defaultAccountId)
    is_old_leads_lane :=
      (log.is_old_leads_lane.getD false || log.isOldLeadsLane.getD false ||
        decide (log.lane = some "old"))
    campaign_tag := jsTrim (jsOrSO log.campaign_tag (jsOrSO log.tag ""))
    notes := jsTrim (jsOrSO log.notes "")
    experiment_id := jsOrSO log.experiment_id (jsOrSO log.experimentId "")
    variant_id := jsOrSO log.variant_id (jsOrSO log.variantId "")
    connection_requests_sent := (clampNonNegIntO log.connection_requests_sent : ℕ)
    connections_accepted :=
      (clampNonNegIntO (jsOrNumO log.connections_accepted log.accepted) : ℕ)
    permission_messages_sent :=
      (clampNonNegIntO (jsOrNumO log.permission_messages_sent
        (jsOrNumO log.sent log.initiated)) : ℕ)
    permission_seen :=
      (clampNonNegIntO (jsOrNumO log.permission_seen
        (jsOrNumO log.seen log.mediaSeen)) : ℕ)
    permission_positives :=
      (clampNonNegIntO (jsOrNumO log.permission_positives
        (jsOrNumO log.positive log.engaged)) : ℕ)
    offer_messages_sent := (clampNonNegIntO log.offer_messages_sent : ℕ)
    offer_seen := (clampNonNegIntO log.offer_seen : ℕ)
    offer_or_booking_intent_positives :=
      (clampNonNegIntO (jsOrNumO log.offer_or_booking_intent_positives
        (jsOrNumO log.calendly (some 0))) : ℕ)
    booked_calls := (clampNonNegIntO (jsOrNumO log.booked_calls log.booked) : ℕ)
    attended_calls := (clampNonNegIntO log.attended_calls : ℕ)
    closed_deals := (clampNonNegIntO log.closed_deals : ℕ) }

/-- The per-variant body of normalizeExperiment (Dashboard.jsx lines 337-342). -/
def normalizeVariant (env : Env) (index : ℕ) (variant : RawVariant) : Variant :=
  { id := jsOrSO variant.id env.freshId
    name := jsTrim (jsOrSO variant.name ("Variant " ++ toString (index + 1)))
    message := jsOrSO variant.message (jsOrSO variant.messageText "")
    step_type := jsOrSO variant.step_type (jsOrSO variant.stepType "") }

/-- normalizeExperiment from Dashboard.jsx (lines 324-375). -/
def normalizeExperiment (env : Env) (experiment : RawExperiment) : Experiment :=
  let stage := jsOrSO experiment.funnel_stage_targeted
    (jsOrSO experiment.stage "PERMISSION")
  let primaryMetric := jsOrSO experiment.primary_metric (primaryMetricForStage stage)
  let requiredSeen :=
    match experiment.required_sample_size_seen with
    | some q => clampNonNegInt q
    | none => requiredSeenForStage stage
  let variants :=
    match experiment.variants with
    | some (v :: rest) => mapWithIndex (normalizeVariant env) 0 (v :: rest)
    | _ =>
      if jsTruthyS experiment.messageText || jsTruthyS experiment.messageLabel then
        [{ id := env.freshId
           name := jsTrim (jsOrSO experiment.messageLabel "Variant A")
           message := jsOrSO experiment.messageText ""
           step_type := "" }]
      else
        [{ id := env.freshId, name := "Variant A", message := "", step_type := "" }]
  { id := jsOrSO experiment.id env.freshId
    name := jsTrim (jsOrSO experiment.name "Untitled Experiment")
    status := jsOrSO experiment.status "active"
    hypothesis := jsTrim (jsOrSO experiment.hypothesis "")
    notes := jsTrim (jsOrSO experiment.notes "")
    createdAt := jsOrSO experiment.createdAt env.nowIso
    funnel_stage_targeted := stage
    primary_metric := primaryMetric
    required_sample_size_seen := requiredSeen
    variants := variants }

/-- normalizeProspect from Dashboard.jsx (lines 377-392); a stage outside
FUNNEL_STAGES falls back to the first stage. -/
def normalizeProspect (env : Env) (defaultAccountId : String)
    (prospect : RawProspect) : Prospect :=
  let stage :=
    match prospect.stage with
    | some st => if FUNNEL_STAGE_VALUES.contains st then st else "REQUESTED"
    | none => "REQUESTED"
  { id := jsOrSO prospect.id env.freshId
    name := jsTrim (jsOrSO prospect.name "Untitled")
    linkedin_url := jsTrim (jsOrSO prospect.linkedin_url (jsOrSO prospect.linkedinUrl ""))
    notes := jsTrim (jsOrSO prospect.notes "")
    account_id := jsOrSO prospect.account_id (jsOrSO prospect.accountId defaultAccountId)
    is_old_leads_lane :=
      (prospect.is_old_leads_lane.getD false || decide (prospect.lane = some "old"))
    stage := stage }

/-- normalizeState from Dashboard.jsx (lines 394-413). -/
def normalizeState (env : Env) (state : RawState) : AppState :=
  let config := normalizeConfig state.config
  let defaultAccountId :=
    match config.accounts.head? with
    | some a => jsOrStr a.id "account_1"
    | none => "account_1"
  { config := config
    logs := (state.logs.getD []).map (normalizeLog env defaultAccountId)
    experiments := (state.experiments.getD []).map (normalizeExperiment env)
    prospects := (state.prospects.getD []).map (normalizeProspect env defaultAccountId)
    ui := { isDark := state.ui.bind RawUi.isDark ≠ some false } }

/-! ### Viewing normalized state as raw input again

Normalized state only carries the canonical keys, so feeding it back to the
normalizer means: canonical slots defined, every legacy alias slot absent. -/

/-- View normalized goals as raw input. -/
def toRawGoals (g : Goals) : RawGoals :=
  ⟨some (g.connection_requests_sent : ℚ), some (g.permission_messages_sent : ℚ),
   some (g.booked_calls : ℚ)⟩

/-- View a normalized account as raw input. -/
def toRawAccount (a : Account) : RawAccount :=
  ⟨some a.id, some a.name, some (toRawGoals a.goals)⟩

/-- View normalized targets as raw input. -/
def toRawTargets (t : KpiTargets) : RawTargets :=
  ⟨some t.CR, some t.PRR, some t.ABR, some t.BOOKED_KPI, some t.POSITIVE_TO_ABR,
   some t.ABR_TO_BOOKED, some t.SEEN_RATE, some t.SHOW_UP_RATE,
   some t.SALES_CLOSE_RATE⟩

/-- View a normalized configuration as raw input. -/
def toRawConfig (c : Config) : RawConfig :=
  ⟨some c.autosave, some c.excludeOldLeadsFromKpi, some (toRawTargets c.kpiTargets),
   some (c.accounts.map toRawAccount)⟩

/-- View a normalized daily log as raw input. -/
def toRawLog (l : DailyLog) : RawLog :=
  { id := some l.id
    date := some l.date
    account_id := some l.account_id
    accountId := none
    is_old_leads_lane := some l.is_old_leads_lane
    isOldLeadsLane := none
    lane := none
    campaign_tag := some l.campaign_tag
    tag := none
    notes := some l.notes
    experiment_id := some l.experiment_id
    experimentId := none
    variant_id := some l.variant_id
    variantId := none
    connection_requests_sent := some l.connection_requests_sent
    connections_accepted := some l.connections_accepted
    accepted := none
    permission_messages_sent := some l.permission_messages_sent
    sent := none
    initiated := none
    permission_seen := some l.permission_seen
    seen := none
    mediaSeen := none
    permission_positives := some l.permission_positives
    positive := none
    engaged := none
    offer_messages_sent := some l.offer_messages_sent
    offer_seen := some l.offer_seen
    offer_or_booking_intent_positives := some l.offer_or_booking_intent_positives
    calendly := none
    booked_calls := some l.booked_calls
    booked := none
    attended_calls := some l.attended_calls
    closed_deals := some l.closed_deals }

/-- View a normalized variant as raw input. -/
def toRawVariant (v : Variant) : RawVariant :=
  ⟨some v.id, some v.name, some v.message, none, some v.step_type, none⟩

/-- View a normalized experiment as raw input. -/
def toRawExperiment (e : Experiment) : RawExperiment :=
  ⟨some e.id, some e.name, some e.status, some e.hypothesis, some e.notes,
   some e.createdAt, some e.funnel_stage_targeted, none, some e.primary_metric,
   some (e.required_sample_size_seen : ℚ), some (e.variants.map toRawVariant),
   none, none⟩

/-- View a normalized prospect as raw input. -/
def toRawProspect (p : Prospect) : RawProspect :=
  ⟨some p.id, some p.name, some p.linkedin_url, none, some p.notes,
   some p.account_id, none, some p.is_old_leads_lane, none, some p.stage⟩

/-- View a normalized application state as raw input. -/
def toRawState (s : AppState) : RawState :=
  ⟨some (toRawConfig s.config), some (s.logs.map toRawLog),
   some (s.experiments.map toRawExperiment), some (s.prospects.map toRawProspect),
   some ⟨some s.ui.isDark⟩⟩

/-! ### Invariants of normalized state -/

/-- A possibly-absent raw name is harmless when, if it is a nonempty string,
it does not trim to the empty string (a whitespace-only name is the
problematic case). -/
def strOK (o : Option String) : Prop :=
  ∀ t, o = some t → t ≠ "" → jsTrim t ≠ ""

/-- Every name-like field of the raw state is harmless in the sense of strOK. -/
def GoodRawNames (s : RawState) : Prop :=
  (∀ c, s.config = some c → ∀ l, c.accounts = some l → ∀ a ∈ l, strOK a.name) ∧
  (∀ l, s.experiments = some l → ∀ e ∈ l,
    strOK e.name ∧ strOK e.messageLabel ∧
    (∀ vs, e.variants = some vs → ∀ v ∈ vs, strOK v.name)) ∧
  (∀ l, s.prospects = some l → ∀ p ∈ l, strOK p.name)

/-- A rational that is (the cast of) a clamped non-negative integer. -/
def IsClampedNat (q : ℚ) : Prop := ((clampNonNegInt q : ℕ) : ℚ) = q

/-- The invariant normalizeLog establishes. -/
def GoodLog (l : DailyLog) : Prop :=
  l.id ≠ "" ∧ l.date ≠ "" ∧ l.account_id ≠ "" ∧
  jsTrim l.campaign_tag = l.campaign_tag ∧ jsTrim l.notes = l.notes ∧
  IsClampedNat l.connection_requests_sent ∧
  IsClampedNat l.connections_accepted ∧
  IsClampedNat l.permission_messages_sent ∧
  IsClampedNat l.permission_seen ∧
  IsClampedNat l.permission_positives ∧
  IsClampedNat l.offer_messages_sent ∧
  IsClampedNat l.offer_seen ∧
  IsClampedNat l.offer_or_booking_intent_positives ∧
  IsClampedNat l.booked_calls ∧
  IsClampedNat l.attended_calls ∧
  IsClampedNat l.closed_deals

/-- The invariant normalizeExperiment establishes for each variant. -/
def GoodVariant (v : Variant) : Prop :=
  v.id ≠ "" ∧ v.name ≠ "" ∧ jsTrim v.name = v.name

/-- The invariant normalizeExperiment establishes. -/
def GoodExperiment (e : Experiment) : Prop :=
  e.id ≠ "" ∧ e.name ≠ "" ∧ jsTrim e.name = e.name ∧ e.status ≠ "" ∧
  jsTrim e.hypothesis = e.hypothesis ∧ jsTrim e.notes = e.notes ∧
  e.createdAt ≠ "" ∧ e.funnel_stage_targeted ≠ "" ∧ e.primary_metric ≠ "" ∧
  e.variants ≠ [] ∧ (∀ v ∈ e.variants, GoodVariant v)

/-- The invariant normalizeProspect establishes. -/
def GoodProspect (p : Prospect) : Prop :=
  p.id ≠ "" ∧ p.name ≠ "" ∧ jsTrim p.name = p.name ∧
  jsTrim p.linkedin_url = p.linkedin_url ∧ jsTrim p.notes = p.notes ∧
  p.account_id ≠ "" ∧ FUNNEL_STAGE_VALUES.contains p.stage = true

/-- The invariant normalizeConfig establishes for each account. -/
def GoodAccount (a : Account) : Prop :=
  a.id ≠ "" ∧ a.name ≠ "" ∧ jsTrim a.name = a.name

/-- The invariant normalizeConfig establishes. -/
def GoodConfig (c : Config) : Prop :=
  c.accounts ≠ [] ∧ (∀ a ∈ c.accounts, GoodAccount a) ∧
  0 ≤ c.kpiTargets.CR ∧ 0 ≤ c.kpiTargets.PRR ∧ 0 ≤ c.kpiTargets.ABR ∧
  0 ≤ c.kpiTargets.BOOKED_KPI ∧ 0 ≤ c.kpiTargets.POSITIVE_TO_ABR ∧
  0 ≤ c.kpiTargets.ABR_TO_BOOKED ∧ 0 ≤ c.kpiTargets.SEEN_RATE ∧
  0 ≤ c.kpiTargets.SHOW_UP_RATE ∧ 0 ≤ c.kpiTargets.SALES_CLOSE_RATE

/-- The invariant normalizeState establishes. -/
def GoodState (s : AppState) : Prop :=
  GoodConfig s.config ∧ (∀ l ∈ s.logs, GoodLog l) ∧
  (∀ e ∈ s.experiments, GoodExperiment e) ∧ (∀ p ∈ s.prospects, GoodProspect p)

/-- A concrete impure environment. -/
def envX : Env := ⟨"fresh_id_1", "2024-05-01", "2024-05-01T00:00:00.000Z"⟩

/-- A raw state whose single account is named by a lone space. -/
def rawBadName : RawState :=
  { config := some
      { autosave := none, excludeOldLeadsFromKpi := none, kpiTargets := none
        accounts := some [{ id := some "a", name := some " ", goals := none }] }
    logs := none, experiments := none, prospects := none, ui := none }

/-- The all-absent raw state. -/
def rawEmptyState : RawState := ⟨none, none, none, none, none⟩

/-- Componentwise sum of two totals records (proof device for the fold). -/
def addTotals (a b : Totals) : Totals :=
  ⟨a.connection_requests_sent + b.connection_requests_sent,
   a.connections_accepted + b.connections_accepted,
   a.permission_messages_sent + b.permission_messages_sent,
   a.permission_seen + b.permission_seen,
   a.permission_positives + b.permission_positives,
   a.offer_messages_sent + b.offer_messages_sent,
   a.offer_seen + b.offer_seen,
   a.offer_or_booking_intent_positives + b.offer_or_booking_intent_positives,
   a.booked_calls + b.booked_calls,
   a.attended_calls + b.attended_calls,
   a.closed_deals + b.closed_deals⟩

/-- The totals record whose fields are the clamped per-field sums over a list
of logs (the order-independent description of aggregation). -/
def sumTotals (logs : List DailyLog) : Totals :=
  ⟨(logs.map (fun l => clampNonNegInt l.connection_requests_sent)).sum,
   (logs.map (fun l => clampNonNegInt l.connections_accepted)).sum,
   (logs.map (fun l => clampNonNegInt l.permission_messages_sent)).sum,
   (logs.map (fun l => clampNonNegInt l.permission_seen)).sum,
   (logs.map (fun l => clampNonNegInt l.permission_positives)).sum,
   (logs.map (fun l => clampNonNegInt l.offer_messages_sent)).sum,
   (logs.map (fun l => clampNonNegInt l.offer_seen)).sum,
   (logs.map (fun l => clampNonNegInt l.offer_or_booking_intent_positives)).sum,
   (logs.map (fun l => clampNonNegInt l.booked_calls)).sum,
   (logs.map (fun l => clampNonNegInt l.attended_calls)).sum,
   (logs.map (fun l => clampNonNegInt l.closed_deals)).sum⟩

/-- The step of the winner reduce once the accumulator is known to be
non-null (proof device for analysing the fold). -/
def goStep (x c : VariantStat) : VariantStat :=
  if metricKey c > metricKey x then c else x

/-- The variant statistics computed for variant vA of expEx on the
seen-zero log. -/
def statSeenZero : VariantStat :=
  (computeVariantStats expEx [logSeenZero] noFilters configEx).headI

/-- The experiment statistics computed for expEx on the two variant logs. -/
def expStatEx : ExperimentStat :=
  (computeExperimentStats [expEx] [logVA, logVB] noFilters configEx).headI

attribute [ext] DailyLog Totals KpiTargets Goals Account Config Variant
attribute [ext] Experiment Prospect Ui AppState

/-! # Theorems -/

/-! ## Basic facts about the JS helpers -/

theorem jsOr0_eq (q : ℚ) : jsOr0 q = q := by
  unfold jsOr0; split <;> simp_all

theorem safeDivide_eq (n d : ℚ) :
    safeDivide n d = if d ≤ 0 then none else some (n / d) := by
  unfold safeDivide; rw [jsOr0_eq, jsOr0_eq]

theorem safeDivide_natCast (n d : ℕ) :
    safeDivide (n : ℚ) (d : ℚ) = ratioSpecC2 n d := by
  rw [safeDivide_eq]; rfl

theorem statusFor_scaled (T : ℚ) (v : Option ℚ) :
    statusFor v (some (T / 100)) = statusSpecC7 T v := by
  cases v with
  | none => rfl
  | some x =>
    have h100 : (0 : ℚ) < 100 := by norm_num
    have e1 : (T / 100 ≤ 0) ↔ (T ≤ 0) := by
      rw [div_le_iff₀ h100]; norm_num
    have e2 : (T / 100 ≤ x) ↔ (T ≤ x * 100) := div_le_iff₀ h100
    have e3 : (T / 100 * (9 / 10) ≤ x) ↔ ((9 / 10) * T ≤ x * 100) := by
      have hrw : T / 100 * (9 / 10) = (9 / 10) * T / 100 := by ring
      rw [hrw, div_le_iff₀ h100]
    unfold statusFor statusSpecC7
    simp only [ge_iff_le, e2, e3, e1]

/-! ## Claim C2 -/

/-- C2: for every totals record, each of the nine ratios computed by
computeKpis (CR, PRR, ABR, BOOKED_KPI, POSITIVE_TO_ABR, ABR_TO_BOOKED,
SEEN_RATE, SHOW_UP_RATE, SCR) is null exactly when its denominator is not
positive, and is the exact quotient of its numerator by its denominator
otherwise (so no NaN and no Infinity can appear). -/
theorem claim_C2 (totals : Totals) (targets : KpiTargets) :
    ((computeKpis totals targets).primary.CR =
      ratioSpecC2 totals.connections_accepted totals.connection_requests_sent) ∧
    ((computeKpis totals targets).primary.PRR =
      ratioSpecC2 totals.permission_positives totals.permission_messages_sent) ∧
    ((computeKpis totals targets).primary.ABR =
      ratioSpecC2 totals.offer_or_booking_intent_positives
        totals.permission_messages_sent) ∧
    ((computeKpis totals targets).primary.BOOKED_KPI =
      ratioSpecC2 totals.booked_calls totals.permission_messages_sent) ∧
    ((computeKpis totals targets).secondary.POSITIVE_TO_ABR =
      ratioSpecC2 totals.offer_or_booking_intent_positives
        totals.permission_positives) ∧
    ((computeKpis totals targets).secondary.ABR_TO_BOOKED =
      ratioSpecC2 totals.booked_calls totals.offer_or_booking_intent_positives) ∧
    ((computeKpis totals targets).diagnostics.SEEN_RATE =
      ratioSpecC2 totals.permission_seen totals.permission_messages_sent) ∧
    ((computeKpis totals targets).diagnostics.SHOW_UP_RATE =
      ratioSpecC2 totals.attended_calls totals.booked_calls) ∧
    ((computeKpis totals targets).diagnostics.SCR =
      ratioSpecC2 totals.closed_deals totals.attended_calls) := by
  refine ⟨?_, ?_, ?_, ?_, ?_, ?_, ?_, ?_, ?_⟩ <;>
    simp [computeKpis, safeDivide_natCast]

/-! ## Claim C3 -/

/-- C3: the bottleneck diagnosis equals the specified deterministic top-down
first-match procedure with null ratios read as 0 (BOOKED_KPI at target means
no bottleneck, then ABR means the booking stage, then PRR the offer stage,
then CR the permission stage, else targeting); in particular all four
primary metrics at target yield None (scale volume) and none at target
yields Targeting/Profile resonance. -/
theorem claim_C3 (kpis : PrimaryKpis) (targets : ScaledTargets) :
    computeBottleneck kpis targets = bottleneckSpecC3 kpis targets ∧
    (meetsTarget kpis.BOOKED_KPI targets.BOOKED_KPI ∧
     meetsTarget kpis.ABR targets.ABR ∧
     meetsTarget kpis.PRR targets.PRR ∧
     meetsTarget kpis.CR targets.CR →
      computeBottleneck kpis targets = "None (scale volume)") ∧
    (¬ meetsTarget kpis.BOOKED_KPI targets.BOOKED_KPI ∧
     ¬ meetsTarget kpis.ABR targets.ABR ∧
     ¬ meetsTarget kpis.PRR targets.PRR ∧
     ¬ meetsTarget kpis.CR targets.CR →
      computeBottleneck kpis targets = "Targeting/Profile resonance") := by
  refine ⟨?_, ?_, ?_⟩
  · unfold computeBottleneck bottleneckSpecC3
    simp [jsOr0_eq]
  · rintro ⟨h1, -, -, -⟩
    unfold meetsTarget at h1
    unfold computeBottleneck
    simp only [jsOr0_eq]
    rw [if_pos h1]
  · rintro ⟨h1, h2, h3, h4⟩
    unfold meetsTarget at h1 h2 h3 h4
    unfold computeBottleneck
    simp only [jsOr0_eq]
    rw [if_neg h1, if_neg h2, if_neg h3, if_neg h4]

/-- Witness for C3 at a concrete input where all four primary metrics meet
their targets. -/
theorem claim_C3_witness :
    computeBottleneck ⟨some 1, some 1, some 1, some 1⟩ ⟨0, 0, 0, 0, 0, 0, 0, 0, 0⟩ =
      "None (scale volume)" :=
  (claim_C3 ⟨some 1, some 1, some 1, some 1⟩ ⟨0, 0, 0, 0, 0, 0, 0, 0, 0⟩).2.1
    (by refine ⟨?_, ?_, ?_, ?_⟩ <;> · unfold meetsTarget; norm_num)

/-! ## Claim C7 -/

/-- C7 (amended): for a metric with configured target T on the 0-100 scale
and computed ratio v on the 0-1 scale, the status is neutral when v is null
or when T is not positive; otherwise, with pct = v*100, it is good when
pct is at least T, warn when pct is at least 0.9*T, and bad otherwise.  This
holds for every status field computed by computeKpis and for statusFor on
every scaled target. -/
theorem claim_C7 (totals : Totals) (targets : KpiTargets) :
    ((computeKpis totals targets).status.CR =
      statusSpecC7 targets.CR (computeKpis totals targets).primary.CR) ∧
    ((computeKpis totals targets).status.PRR =
      statusSpecC7 targets.PRR (computeKpis totals targets).primary.PRR) ∧
    ((computeKpis totals targets).status.ABR =
      statusSpecC7 targets.ABR (computeKpis totals targets).primary.ABR) ∧
    ((computeKpis totals targets).status.BOOKED_KPI =
      statusSpecC7 targets.BOOKED_KPI (computeKpis totals targets).primary.BOOKED_KPI) ∧
    ((computeKpis totals targets).status.POSITIVE_TO_ABR =
      statusSpecC7 targets.POSITIVE_TO_ABR
        (computeKpis totals targets).secondary.POSITIVE_TO_ABR) ∧
    ((computeKpis totals targets).status.ABR_TO_BOOKED =
      statusSpecC7 targets.ABR_TO_BOOKED
        (computeKpis totals targets).secondary.ABR_TO_BOOKED) ∧
    ((computeKpis totals targets).status.SEEN_RATE =
      statusSpecC7 targets.SEEN_RATE (computeKpis totals targets).diagnostics.SEEN_RATE) ∧
    ((computeKpis totals targets).status.SHOW_UP_RATE =
      statusSpecC7 targets.SHOW_UP_RATE
        (computeKpis totals targets).diagnostics.SHOW_UP_RATE) ∧
    ((computeKpis totals targets).status.SCR =
      statusSpecC7 targets.SALES_CLOSE_RATE (computeKpis totals targets).diagnostics.SCR) ∧
    (∀ (T : ℚ) (v : Option ℚ), statusFor v (some (jsOr0 T / 100)) = statusSpecC7 T v) := by
  refine ⟨?_, ?_, ?_, ?_, ?_, ?_, ?_, ?_, ?_, ?_⟩ <;>
    simp [computeKpis, jsOr0_eq, statusFor_scaled]

/-- Counterexample to C7 as stated: with a configured target of 0 and a known
ratio of 0 (0 accepted out of 10 requests), the code reports neutral while
the claimed classification reports good. -/
theorem claim_C7_cex :
    (computeKpis totalsCrZero targetsCrZero).status.CR = "neutral" ∧
    statusSpecOrigC7 targetsCrZero.CR
      ((computeKpis totalsCrZero targetsCrZero).primary.CR) = "good" ∧
    ("neutral" : String) ≠ "good" := by
  have h : (computeKpis totalsCrZero targetsCrZero).primary.CR = some 0 := by
    simp [computeKpis, totalsCrZero, targetsCrZero, safeDivide_eq]
  refine ⟨?_, ?_, by simp⟩
  · norm_num [computeKpis, statusFor, totalsCrZero, targetsCrZero, safeDivide_eq, jsOr0]
  · rw [h]
    simp [statusSpecOrigC7, targetsCrZero]

/-! ## Claim C5 -/

theorem foldl_aggStep (l : List DailyLog) :
    ∀ t : Totals, l.foldl aggStep t = addTotals t (sumTotals l) := by
  induction l with
  | nil =>
    intro t
    cases t
    simp [addTotals, sumTotals]
  | cons x xs ih =>
    intro t
    rw [List.foldl_cons, ih]
    cases t
    simp [addTotals, sumTotals, aggStep, Nat.add_assoc]

theorem computeAggregates_eq_sumTotals (l : List DailyLog) :
    computeAggregates l = sumTotals l := by
  unfold computeAggregates zeroTotals
  rw [foldl_aggStep]
  unfold addTotals
  cases h : sumTotals l
  simp

/-- C5: aggregation is order-independent (any permutation of the logs yields
the same totals) and the empty list aggregates to the all-zero totals. -/
theorem claim_C5 :
    (∀ (l₁ l₂ : List DailyLog), l₁.Perm l₂ →
      computeAggregates l₁ = computeAggregates l₂) ∧
    computeAggregates ([] : List DailyLog) = zeroTotals := by
  constructor
  · intro l₁ l₂ h
    rw [computeAggregates_eq_sumTotals, computeAggregates_eq_sumTotals]
    unfold sumTotals
    simp only [Totals.mk.injEq]
    refine ⟨?_, ?_, ?_, ?_, ?_, ?_, ?_, ?_, ?_, ?_, ?_⟩ <;>
      exact List.Perm.sum_eq (List.Perm.map _ h)
  · rfl

/-- Witness for C5: swapping two concrete logs leaves the totals unchanged. -/
theorem claim_C5_witness :
    computeAggregates [logExA, logExB] = computeAggregates [logExB, logExA] :=
  claim_C5.1 [logExA, logExB] [logExB, logExA] (List.Perm.swap logExB logExA [])

/-! ## Claim C6 -/

theorem headI_mem_of_ne_nil {α : Type} [Inhabited α] (l : List α) (h : l ≠ []) :
    l.headI ∈ l := by
  cases l with
  | nil => exact absurd rfl h
  | cons x xs => exact List.mem_cons_self x xs

theorem getSeen_eq_spec (stage : String) (t : Totals) :
    getSeenCountForStage stage t = seenSpecC6 stage t := by
  unfold getSeenCountForStage seenSpecC6 natOr
  split_ifs <;> omega

/-- C6 (amended): for every experiment and variant, the validity-gate count
seen equals the aggregated permissionSeen when the targeted stage is
PERMISSION and that count is positive, falling back to the aggregated
permissionMessagesSent when it is zero; analogously offerSeen falling back
to offerMessagesSent when the stage is OFFER; and 0 for any other stage.
The variant is valid exactly when requiredSampleSizeSeen is 0 or seen is at
least requiredSampleSizeSeen. -/
theorem claim_C6 (experiment : Experiment) (logs : List DailyLog)
    (filters : Filters) (config : Config) (s : VariantStat)
    (hs : s ∈ computeVariantStats experiment logs filters config) :
    s.seen = seenSpecC6 experiment.funnel_stage_targeted s.totals ∧
    (s.isValid = true ↔ s.required = 0 ∨ s.seen ≥ s.required) ∧
    s.required = clampNonNegInt (experiment.required_sample_size_seen : ℚ) := by
  unfold computeVariantStats at hs
  simp only [List.mem_map] at hs
  obtain ⟨v, hv, rfl⟩ := hs
  refine ⟨?_, ?_, rfl⟩
  · exact getSeen_eq_spec _ _
  · simp

/-- Witness for C6: the amended seen computation evaluated on the concrete
seen-zero scenario. -/
theorem claim_C6_witness :
    statSeenZero.seen = seenSpecC6 expEx.funnel_stage_targeted statSeenZero.totals :=
  (claim_C6 expEx [logSeenZero] noFilters configEx statSeenZero
    (headI_mem_of_ne_nil _ (by simp [computeVariantStats, expEx]))).1

/-- Counterexample to C6 as stated: with stage PERMISSION, permission_seen 0
and permission_messages_sent 70, the code's seen is 70 (the logical-or
fallback) and the variant passes the 60-seen validity gate, while the
claimed seen is the aggregated permissionSeen, 0. -/
theorem claim_C6_cex :
    statSeenZero.seen = 70 ∧
    seenSpecOrigC6 expEx.funnel_stage_targeted statSeenZero.totals = 0 ∧
    statSeenZero.isValid = true ∧ (70 : ℕ) ≠ 0 := by
  refine ⟨by decide, by decide, by decide, by decide⟩

/-! ## Claim C1 -/

theorem goStep_foldl_spec (l : List VariantStat) :
    ∀ b : VariantStat,
      l.foldl goStep b ∈ b :: l ∧
      (∀ v ∈ b :: l, metricKey v ≤ metricKey (l.foldl goStep b)) ∧
      (l.foldl goStep b = b ∨
        (metricKey b < metricKey (l.foldl goStep b) ∧
         ∃ l₁ l₂, l = l₁ ++ (l.foldl goStep b) :: l₂ ∧
           ∀ v ∈ l₁, metricKey v < metricKey (l.foldl goStep b))) := by
  induction l with
  | nil =>
    intro b
    refine ⟨by simp, ?_, Or.inl rfl⟩
    intro v hv
    simp at hv
    simp [hv]
  | cons c t ih =>
    intro b
    rw [List.foldl_cons]
    by_cases hc : metricKey b < metricKey c
    · have hb' : goStep b c = c := by
        unfold goStep
        rw [if_pos hc]
      rw [hb']
      obtain ⟨hmem, hub, hfirst⟩ := ih c
      have hcr : metricKey c ≤ metricKey (t.foldl goStep c) :=
        hub c (List.mem_cons_self c t)
      refine ⟨?_, ?_, ?_⟩
      · exact List.mem_cons_of_mem b hmem
      · intro v hv
        rcases List.mem_cons.mp hv with rfl | hv2
        · exact le_of_lt (lt_of_lt_of_le hc hcr)
        · exact hub v hv2
      · right
        refine ⟨lt_of_lt_of_le hc hcr, ?_⟩
        rcases hfirst with heq | ⟨hlt, l₁, l₂, ht, hpre⟩
        · exact ⟨[], t, by rw [heq]; rfl, by simp⟩
        · refine ⟨c :: l₁, l₂, by rw [List.cons_append, ← ht], ?_⟩
          intro v hv
          rcases List.mem_cons.mp hv with rfl | hv2
          · exact hlt
          · exact hpre v hv2
    · have hb' : goStep b c = b := by
        unfold goStep
        rw [if_neg hc]
      rw [hb']
      obtain ⟨hmem, hub, hfirst⟩ := ih b
      have hbr : metricKey b ≤ metricKey (t.foldl goStep b) :=
        hub b (List.mem_cons_self b t)
      refine ⟨?_, ?_, ?_⟩
      · rcases List.mem_cons.mp hmem with heq | hmem2
        · rw [heq]
          exact List.mem_cons_self b (c :: t)
        · exact List.mem_cons_of_mem b (List.mem_cons_of_mem c hmem2)
      · intro v hv
        rcases List.mem_cons.mp hv with rfl | hv2
        · exact hub v (List.mem_cons_self v t)
        · rcases List.mem_cons.mp hv2 with rfl | hv3
          · exact le_trans (le_of_not_lt hc) hbr
          · exact hub v (List.mem_cons_of_mem b hv3)
      · rcases hfirst with heq | ⟨hlt, l₁, l₂, ht, hpre⟩
        · exact Or.inl heq
        · right
          refine ⟨hlt, c :: l₁, l₂, by rw [List.cons_append, ← ht], ?_⟩
          intro v hv
          rcases List.mem_cons.mp hv with rfl | hv2
          · exact lt_of_le_of_lt (le_of_not_lt hc) hlt
          · exact hpre v hv2

theorem winnerStep_some (b c : VariantStat) :
    winnerStep (some b) c = some (goStep b c) := by
  show (if metricKey c > metricKey b then some c else some b) = some (goStep b c)
  unfold goStep
  by_cases h : metricKey c > metricKey b
  · simp [h]
  · simp [h]

theorem foldl_winnerStep_some (l : List VariantStat) :
    ∀ b : VariantStat, l.foldl winnerStep (some b) = some (l.foldl goStep b) := by
  induction l with
  | nil => intro b; rfl
  | cons c t ih =>
    intro b
    rw [List.foldl_cons, List.foldl_cons, winnerStep_some, ih]

theorem winnerFold_spec (l : List VariantStat) :
    (l.foldl winnerStep none = none ↔ l = []) ∧
    (∀ w, l.foldl winnerStep none = some w →
      w ∈ l ∧ (∀ v ∈ l, metricKey v ≤ metricKey w) ∧
      ∃ l₁ l₂, l = l₁ ++ w :: l₂ ∧ ∀ v ∈ l₁, metricKey v < metricKey w) := by
  cases l with
  | nil => simp
  | cons x t =>
    have hfold : (x :: t).foldl winnerStep none = some (t.foldl goStep x) := by
      rw [List.foldl_cons]
      exact foldl_winnerStep_some t x
    constructor
    · rw [hfold]
      simp
    · intro w hw
      rw [hfold] at hw
      injection hw with hw
      obtain ⟨hmem, hub, hfirst⟩ := goStep_foldl_spec t x
      rw [hw] at hmem hub hfirst
      refine ⟨hmem, hub, ?_⟩
      rcases hfirst with heq | ⟨hlt, l₁, l₂, ht, hpre⟩
      · exact ⟨[], t, by rw [heq]; rfl, by simp⟩
      · refine ⟨x :: l₁, l₂, by rw [List.cons_append, ← ht], ?_⟩
        intro v hv
        rcases List.mem_cons.mp hv with rfl | hv2
        · exact hlt
        · exact hpre v hv2

/-- C1: for every experiment evaluation, the winner is null exactly when no
variant is valid; a declared winner is a valid variant whose comparison key
(metricValue, with null read as -1) is maximal among the valid variants, and
every valid variant listed before the winner has a strictly smaller key
(ties keep the first encountered in variant order); and a null metricValue
contributes the key -1, so it never beats any real value including 0. -/
theorem claim_C1 (experiments : List Experiment) (logs : List DailyLog)
    (filters : Filters) (config : Config) (st : ExperimentStat)
    (hst : st ∈ computeExperimentStats experiments logs filters config) :
    (st.winner = none ↔ st.variantStats.filter (fun v => v.isValid) = []) ∧
    (∀ w, st.winner = some w →
      w.isValid = true ∧ w ∈ st.variantStats ∧
      (∀ v ∈ st.variantStats.filter (fun v => v.isValid),
        metricKey v ≤ metricKey w) ∧
      (∃ l₁ l₂, st.variantStats.filter (fun v => v.isValid) = l₁ ++ w :: l₂ ∧
        ∀ v ∈ l₁, metricKey v < metricKey w)) ∧
    (∀ v : VariantStat, v.metricValue = none → metricKey v = -1) := by
  unfold computeExperimentStats at hst
  simp only [List.mem_map] at hst
  obtain ⟨e, he, rfl⟩ := hst
  dsimp only
  obtain ⟨hnone, hsome⟩ :=
    winnerFold_spec ((computeVariantStats e logs filters config).filter (fun v => v.isValid))
  refine ⟨hnone, ?_, ?_⟩
  · intro w hw
    obtain ⟨hmem, hub, hdec⟩ := hsome w hw
    refine ⟨List.of_mem_filter hmem, List.mem_of_mem_filter hmem, hub, hdec⟩
  · intro v hv
    unfold metricKey
    rw [hv]
    rfl

/-- Witness for C1: the winner characterization applied to the concrete
two-variant permission experiment. -/
theorem claim_C1_witness :
    expStatEx.winner = none ↔ expStatEx.variantStats.filter (fun v => v.isValid) = [] :=
  (claim_C1 [expEx] [logVA, logVB] noFilters configEx expStatEx
    (headI_mem_of_ne_nil _ (by simp [computeExperimentStats]))).1

/-! ## Claim C9 -/

theorem jsOrStr_empty (s : String) : jsOrStr s "" = s := by
  unfold jsOrStr
  split <;> simp_all

theorem notReject_eq_passAccount (crit : Option String) (log : DailyLog) :
    (!(rejectStrCrit crit log.account_id)) = passAccountC9 crit log := by
  cases crit with
  | none => rfl
  | some a =>
    unfold rejectStrCrit passAccountC9 jsTruthyS
    by_cases h1 : a = ""
    · simp [h1]
    · by_cases h2 : a = "all"
      · simp [h1, h2]
      · by_cases h3 : log.account_id = a
        · simp [h1, h2, h3]
        · simp [h1, h2, h3, Ne.symm h3]

theorem notReject_eq_passCampaign (crit : Option String) (log : DailyLog) :
    (!(rejectStrCrit crit (jsOrStr log.campaign_tag ""))) = passCampaignC9 crit log := by
  rw [jsOrStr_empty]
  cases crit with
  | none => rfl
  | some a =>
    unfold rejectStrCrit passCampaignC9 jsTruthyS
    by_cases h1 : a = ""
    · simp [h1]
    · by_cases h2 : a = "all"
      · simp [h1, h2]
      · by_cases h3 : log.campaign_tag = a
        · simp [h1, h2, h3]
        · simp [h1, h2, h3, Ne.symm h3]

theorem notLt_decide (x y : ℤ) : (!decide (x < y)) = decide (y ≤ x) := by
  by_cases h : x < y
  · simp [h, not_le.mpr h]
  · simp [h, not_lt.mp h]

theorem filterKeep_eq_passes (f : Filters) (log : DailyLog) :
    filterKeep (parseISODateO f.start) (parseISODateO f.endDate) f log =
      (passAccountC9 f.accountId log && passCampaignC9 f.campaignTag log &&
       passOldLeadsC9 f.onlyOldLeads f.excludeOldLeads log &&
       passDateC9 f.start f.endDate log) := by
  unfold filterKeep
  dsimp only
  rw [notReject_eq_passAccount, notReject_eq_passCampaign]
  have hold : ((!(f.onlyOldLeads && !log.is_old_leads_lane)) &&
      (!(!f.onlyOldLeads && f.excludeOldLeads && log.is_old_leads_lane))) =
      passOldLeadsC9 f.onlyOldLeads f.excludeOldLeads log := by
    unfold passOldLeadsC9
    cases f.onlyOldLeads <;> cases f.excludeOldLeads <;>
      cases log.is_old_leads_lane <;> rfl
  have hdate : ((!(match parseISODateO f.start, parseISODate log.date with
      | some s, some d => decide (d < s)
      | _, _ => false)) &&
      (!(match parseISODateO f.endDate, parseISODate log.date with
      | some e, some d => decide (e < d)
      | _, _ => false))) = passDateC9 f.start f.endDate log := by
    unfold passDateC9
    cases parseISODateO f.start <;> cases parseISODateO f.endDate <;>
      cases parseISODate log.date <;> simp [notLt_decide]
  rw [← hold, ← hdate]
  simp [Bool.and_assoc]

/-- C9 (amended): the filter engine filterLogs is pure and order-preserving
(its output is a sublist of its input); it keeps exactly the logs satisfying
the conjunction of its supplied criteria, where an absent, empty or
sentinel-all accountId or campaignTag restricts nothing, onlyOldLeads takes
precedence over excludeOldLeads, and the date bounds are inclusive on parsed
dates; the empty criteria object keeps every log.  The companion applyFilters
of the camelCase generation (which supports experimentId and variantId
criteria) applies no restriction when its whole filters argument is absent. -/
theorem claim_C9 (logs : List DailyLog) (f : Filters)
    (mlogs : List Migrations.DailyLog) :
    (filterLogs logs f).Sublist logs ∧
    filterLogs logs f = logs.filter (fun log =>
      passAccountC9 f.accountId log && passCampaignC9 f.campaignTag log &&
      passOldLeadsC9 f.onlyOldLeads f.excludeOldLeads log &&
      passDateC9 f.start f.endDate log) ∧
    filterLogs logs noFilters = logs ∧
    Migrations.applyFilters mlogs none = mlogs := by
  refine ⟨List.filter_sublist logs, ?_, ?_, rfl⟩
  · unfold filterLogs
    exact List.filter_congr (fun log _ => filterKeep_eq_passes f log)
  · unfold filterLogs
    have h : ∀ log ∈ logs,
        filterKeep (parseISODateO noFilters.start) (parseISODateO noFilters.endDate)
          noFilters log = true := fun log _ => rfl
    exact List.filter_eq_self.mpr h

/-- Counterexample to C9 as stated: with every criterion omitted (which the
claim reads as no restriction at all), the camelCase applyFilters still
removes old-leads-lane rows, because an absent includeOldLeads flag excludes
them by default. -/
theorem claim_C9_cex :
    mLogOld.isOldLeadsLane = true ∧
    Migrations.applyFilters [mLogOld] (some Migrations.emptyLogFilters) = [] := by
  refine ⟨rfl, by decide⟩

/-! ## Claim C10 -/

/-- C10 (amended): a log whose date string is rejected by parseISODate
(empty, not three dash-separated components, or a non-numeric component) is
never excluded through the dateRange start and end criteria: its membership
in the filtered output does not change when both date bounds are removed.
(As stated, with valid calendar date in place of parseable, the claim fails:
see the counterexample.) -/
theorem claim_C10 (filters : Filters) (log : DailyLog)
    (hbad : parseISODate log.date = none) (logs : List DailyLog)
    (hmem : log ∈ logs) :
    (log ∈ filterLogs logs filters ↔
     log ∈ filterLogs logs { filters with start := none, endDate := none }) := by
  obtain ⟨a, c, oo, eo, st, en⟩ := filters
  unfold filterLogs
  dsimp only
  rw [List.mem_filter, List.mem_filter]
  simp only [hmem, true_and]
  unfold filterKeep
  dsimp only
  rw [hbad]
  cases parseISODateO st <;> cases parseISODateO en <;> rfl

/-- Witness for C10: a log with an empty date string passes the concrete
end-bounded filter exactly as it passes the unbounded one. -/
theorem claim_C10_witness :
    (logNoDate ∈ filterLogs [logNoDate] filtersEnd ↔
     logNoDate ∈ filterLogs [logNoDate] { filtersEnd with start := none, endDate := none }) :=
  claim_C10 filtersEnd logNoDate rfl [logNoDate] (List.mem_cons_self logNoDate [])

/-- Counterexample to C10 as stated: the date string 2024-99-99 is not a
valid YYYY-MM-DD calendar date, yet the Date constructor rolls it over to a
day in 2032, so an end bound of 2024-01-02 does exclude the log through the
dateRange criterion. -/
theorem claim_C10_cex :
    validCalendarDateC10 logBadDate.date = false ∧
    filterLogs [logBadDate] filtersEnd = [] := by
  have e99 : ((99 : ℚ) - 1) = 98 := by norm_num
  have e1 : ((1 : ℚ) - 1) = 0 := by norm_num
  have hbad : parseISODate logBadDate.date = some 22803 := by
    have h : parseISODate logBadDate.date = some (jsMakeDate 2024 ((99 : ℚ) - 1) 99) := rfl
    rw [h, e99]
    rfl
  have hend : parseISODateO filtersEnd.endDate = some 19724 := by
    have h : parseISODateO filtersEnd.endDate =
        some (jsMakeDate 2024 ((1 : ℚ) - 1) 2) := rfl
    rw [h, e1]
    rfl
  refine ⟨rfl, ?_⟩
  unfold filterLogs
  dsimp only
  rw [hend]
  have hkeep : filterKeep (parseISODateO filtersEnd.start) (some 19724)
      filtersEnd logBadDate = false := by
    unfold filterKeep
    rw [hbad]
    rfl
  simp only [List.filter_cons, List.filter_nil, hkeep]
  rfl

/-! ## Claim C8 -/

theorem firstDefined_pair (a b : Option ℚ) :
    firstDefined [a, b] = Migrations.coalesce a b := by
  cases a <;> cases b <;> rfl

/-- C8 (amended): in the camelCase schema migration, each canonical count is
taken from its alias chain by first-defined-wins priority with a defined 0
kept (nullish coalescing): bookedCalls from bookedCalls then booked (the
snake_case booked_calls key is not part of the chain and is ignored),
permissionMessagesSent from permissionMessagesSent then sent,
connectionsAccepted from connectionsAccepted then accepted, and
offerOrBookingIntentPositives from offerOrBookingIntentPositives then
offerPositives, defaulting to the calendly/calendlySent value when that is
positive and 0 otherwise; the legacy record with sent 50, accepted 10,
booked 2, calendlySent 0 migrates to permissionMessagesSent 50,
connectionsAccepted 10, bookedCalls 2, offerOrBookingIntentPositives 0. -/
theorem claim_C8 (raw : Migrations.RawLog) (d : String) :
    ((Migrations.normalizeLog raw d).bookedCalls =
      (firstDefined [raw.bookedCalls, raw.booked]).getD 0) ∧
    ((Migrations.normalizeLog raw d).permissionMessagesSent =
      (firstDefined [raw.permissionMessagesSent, raw.sent]).getD 0) ∧
    ((Migrations.normalizeLog raw d).connectionsAccepted =
      (firstDefined [raw.connectionsAccepted, raw.accepted]).getD 0) ∧
    ((Migrations.normalizeLog raw d).offerOrBookingIntentPositives =
      (firstDefined [raw.offerOrBookingIntentPositives, raw.offerPositives]).getD
        (if (firstDefined [raw.calendly, raw.calendlySent]).getD 0 > 0
         then (firstDefined [raw.calendly, raw.calendlySent]).getD 0 else 0)) ∧
    (raw.bookedCalls = some 0 → (Migrations.normalizeLog raw d).bookedCalls = 0) ∧
    (Migrations.normalizeLog rawScenarioC8 d).permissionMessagesSent = 50 ∧
    (Migrations.normalizeLog rawScenarioC8 d).connectionsAccepted = 10 ∧
    (Migrations.normalizeLog rawScenarioC8 d).bookedCalls = 2 ∧
    (Migrations.normalizeLog rawScenarioC8 d).offerOrBookingIntentPositives = 0 := by
  refine ⟨?_, ?_, ?_, ?_, ?_, rfl, rfl, rfl, rfl⟩
  · rw [firstDefined_pair]; rfl
  · rw [firstDefined_pair]; rfl
  · rw [firstDefined_pair]; rfl
  · rw [firstDefined_pair, firstDefined_pair]; rfl
  · intro h
    show (Migrations.coalesce raw.bookedCalls raw.booked).getD 0 = 0
    rw [h]
    rfl

/-- Witness for C8: a defined zero in the first alias of the booked chain is
kept even though a later alias carries 5. -/
theorem claim_C8_witness :
    (Migrations.normalizeLog rawZeroBooked "Account 1").bookedCalls = 0 :=
  (claim_C8 rawZeroBooked "Account 1").2.2.2.2.1 rfl

/-- Counterexample to C8 as stated: the claimed alias chain booked_calls over
bookedCalls over booked would migrate a record carrying only booked_calls 7
to bookedCalls 7, but the migrator ignores the snake_case key and produces 0. -/
theorem claim_C8_cex :
    (Migrations.normalizeLog rawBookedSnake "Account 1").bookedCalls = 0 ∧
    (firstDefined [rawBookedSnake.booked_calls, rawBookedSnake.bookedCalls,
      rawBookedSnake.booked]).getD 0 = 7 ∧
    (0 : ℚ) ≠ 7 := by
  refine ⟨rfl, rfl, by norm_num⟩

/-! ## Claim C4: string lemmas -/

theorem dropWhile_dropWhile (p : Char → Bool) (l : List Char) :
    (l.dropWhile p).dropWhile p = l.dropWhile p := by
  induction l with
  | nil => rfl
  | cons a t ih =>
    by_cases h : p a
    · simp only [List.dropWhile_cons, h, if_true]
      exact ih
    · simp only [List.dropWhile_cons, h, if_false, Bool.false_eq_true]

theorem trimLeftL_idem (l : List Char) : trimLeftL (trimLeftL l) = trimLeftL l :=
  dropWhile_dropWhile isJsWs l

theorem trimRightL_idem (l : List Char) : trimRightL (trimRightL l) = trimRightL l := by
  unfold trimRightL
  rw [List.reverse_reverse, dropWhile_dropWhile]

theorem head_dropWhile_false (p : Char → Bool) (l : List Char) :
    ∀ c rest, l.dropWhile p = c :: rest → p c = false := by
  induction l with
  | nil => intro c rest h; cases h
  | cons a t ih =>
    intro c rest h
    by_cases hp : p a
    · rw [List.dropWhile_cons_of_pos hp] at h
      exact ih c rest h
    · rw [List.dropWhile_cons_of_neg hp] at h
      cases h
      simpa using hp

theorem trimRightL_eq_append (l : List Char) :
    l = trimRightL l ++ (l.reverse.takeWhile isJsWs).reverse := by
  unfold trimRightL
  conv_lhs => rw [← List.reverse_reverse l]
  rw [← List.reverse_append]
  rw [List.takeWhile_append_dropWhile]

theorem trimLeftL_of_trimRightL_trimLeftL (l : List Char) :
    trimLeftL (trimRightL (trimLeftL l)) = trimRightL (trimLeftL l) := by
  cases hr : trimRightL (trimLeftL l) with
  | nil => rfl
  | cons c rest =>
    obtain ⟨tail, htail⟩ : ∃ tail, trimLeftL l = (c :: rest) ++ tail := by
      refine ⟨((trimLeftL l).reverse.takeWhile isJsWs).reverse, ?_⟩
      conv_lhs => rw [trimRightL_eq_append (trimLeftL l)]
      rw [hr]
    have hc : isJsWs c = false :=
      head_dropWhile_false isJsWs l c (rest ++ tail)
        (by rw [← List.cons_append]; exact htail)
    unfold trimLeftL
    rw [List.dropWhile_cons_of_neg (by simp [hc])]

theorem jsTrim_idem (s : String) : jsTrim (jsTrim s) = jsTrim s := by
  unfold jsTrim
  show String.mk (trimRightL (trimLeftL (trimRightL (trimLeftL s.data)))) =
    String.mk (trimRightL (trimLeftL s.data))
  rw [trimLeftL_of_trimRightL_trimLeftL, trimRightL_idem]

theorem jsTrim_ne_empty_of_head (s : String) (c : Char) (rest : List Char)
    (hdata : s.data = c :: rest) (hc : isJsWs c = false) : jsTrim s ≠ "" := by
  unfold jsTrim trimLeftL
  rw [hdata, List.dropWhile_cons_of_neg (by simp [hc])]
  intro h
  have hnil : trimRightL (c :: rest) = [] := by
    have := congrArg String.data h
    simpa using this
  unfold trimRightL at hnil
  rw [List.reverse_eq_nil_iff] at hnil
  rw [List.dropWhile_eq_nil_iff] at hnil
  have := hnil c (by simp)
  rw [hc] at this
  cases this

theorem append_ne_empty_left (a b : String) (c : Char) (rest : List Char)
    (ha : a.data = c :: rest) : a ++ b ≠ "" := by
  intro h
  have := congrArg String.data h
  rw [String.data_append, ha] at this
  cases this

/-! ## Claim C4: helper lemmas on the JS primitives -/

theorem jsOrSO_some_ne (t : String) (h : t ≠ "") (b : String) :
    jsOrSO (some t) b = t := by
  show (if t = "" then b else t) = t
  rw [if_neg h]

theorem jsOrSO_ne_of_fallback (a : Option String) (b : String) (h : b ≠ "") :
    jsOrSO a b ≠ "" := by
  cases a with
  | none => exact h
  | some s =>
    show (if s = "" then b else s) ≠ ""
    split
    · exact h
    · assumption

theorem jsOrSO_self_empty (s : String) : jsOrSO (some s) "" = s := by
  show (if s = "" then "" else s) = s
  split <;> simp_all

theorem jsTrim_empty : jsTrim "" = "" := rfl

theorem jsTrim_jsOrSO_self (s : String) (h : jsTrim s = s) :
    jsTrim (jsOrSO (some s) "") = s := by
  rw [jsOrSO_self_empty, h]

theorem jsTrim_jsOrSO_ne (o : Option String) (fb : String) (hok : strOK o)
    (hfb : jsTrim fb ≠ "") : jsTrim (jsOrSO o fb) ≠ "" := by
  cases o with
  | none => exact hfb
  | some t =>
    show jsTrim (if t = "" then fb else t) ≠ ""
    by_cases ht : t = ""
    · rw [if_pos ht]
      exact hfb
    · rw [if_neg ht]
      exact hok t rfl ht

theorem clampNonNegInt_natCast (n : ℕ) : clampNonNegInt ((n : ℕ) : ℚ) = n := by
  unfold clampNonNegInt
  rw [Int.floor_natCast]
  omega

theorem isClampedNat_natCast (n : ℕ) : IsClampedNat ((n : ℕ) : ℚ) := by
  unfold IsClampedNat
  rw [clampNonNegInt_natCast]

theorem clampNonNegInt_zero : clampNonNegInt 0 = 0 := by
  have := clampNonNegInt_natCast 0
  simpa using this

theorem clamp_jsOrNumO_none (q : ℚ) (h : IsClampedNat q) :
    ((clampNonNegIntO (jsOrNumO (some q) none) : ℕ) : ℚ) = q := by
  show ((clampNonNegIntO (if q = 0 then none else some q) : ℕ) : ℚ) = q
  by_cases hq : q = 0
  · rw [if_pos hq, hq]
    rfl
  · rw [if_neg hq]
    exact h

theorem clamp_jsOrNumO_zero (q : ℚ) (h : IsClampedNat q) :
    ((clampNonNegIntO (jsOrNumO (some q) (some 0)) : ℕ) : ℚ) = q := by
  show ((clampNonNegIntO (if q = 0 then some 0 else some q) : ℕ) : ℚ) = q
  by_cases hq : q = 0
  · rw [if_pos hq, hq]
    show ((clampNonNegInt 0 : ℕ) : ℚ) = 0
    rw [clampNonNegInt_zero]
    rfl
  · rw [if_neg hq]
    exact h

theorem clamp_some_clamped (q : ℚ) (h : IsClampedNat q) :
    ((clampNonNegIntO (some q) : ℕ) : ℚ) = q := h

theorem decide_ne_some_false (b : Bool) : (decide (some b ≠ some false)) = b := by
  cases b <;> rfl

theorem getD_or_self (b : Bool) :
    ((some b).getD false || (none : Option Bool).getD false ||
      decide ((none : Option String) = some "old")) = b := by
  cases b <;> rfl

theorem map_eq_self_of {α : Type} (l : List α) (f : α → α) (h : ∀ x ∈ l, f x = x) :
    l.map f = l := by
  induction l with
  | nil => rfl
  | cons x t ih =>
    rw [List.map_cons, h x (List.mem_cons_self x t),
      ih (fun y hy => h y (List.mem_cons_of_mem x hy))]

theorem mem_mapWithIndex {α β : Type} (f : ℕ → α → β) :
    ∀ (n : ℕ) (l : List α) (x : β), x ∈ mapWithIndex f n l →
      ∃ i a, a ∈ l ∧ x = f i a := by
  intro n l
  induction l generalizing n with
  | nil => intro x hx; cases hx
  | cons a t ih =>
    intro x hx
    rw [mapWithIndex] at hx
    rcases List.mem_cons.mp hx with rfl | hx2
    · exact ⟨n, a, List.mem_cons_self a t, rfl⟩
    · obtain ⟨i, b, hb, hxb⟩ := ih (n + 1) x hx2
      exact ⟨i, b, List.mem_cons_of_mem a hb, hxb⟩

theorem mapWithIndex_ne_nil {α β : Type} (f : ℕ → α → β) (n : ℕ) (a : α) (t : List α) :
    mapWithIndex f n (a :: t) ≠ [] := by
  rw [mapWithIndex]
  exact List.cons_ne_nil _ _

/-! ## Claim C4: fixed-point lemmas -/

theorem normalizeLog_fix (env : Env) (d : String) (l : DailyLog) (h : GoodLog l) :
    normalizeLog env d (toRawLog l) = l := by
  obtain ⟨h1, h2, h3, h4, h5, c1, c2, c3, c4, c5, c6, c7, c8, c9, c10, c11⟩ := h
  unfold normalizeLog toRawLog
  apply DailyLog.ext
  · exact jsOrSO_some_ne _ h1 _
  · exact jsOrSO_some_ne _ h2 _
  · exact jsOrSO_some_ne _ h3 _
  · show (((some l.is_old_leads_lane).getD false || (none : Option Bool).getD false ||
      decide ((none : Option String) = some "old"))) = l.is_old_leads_lane
    exact getD_or_self _
  · exact jsTrim_jsOrSO_self _ h4
  · exact jsTrim_jsOrSO_self _ h5
  · exact jsOrSO_self_empty _
  · exact jsOrSO_self_empty _
  · exact clamp_some_clamped _ c1
  · exact clamp_jsOrNumO_none _ c2
  · exact clamp_jsOrNumO_none _ c3
  · exact clamp_jsOrNumO_none _ c4
  · exact clamp_jsOrNumO_none _ c5
  · exact clamp_some_clamped _ c6
  · exact clamp_some_clamped _ c7
  · exact clamp_jsOrNumO_zero _ c8
  · exact clamp_jsOrNumO_none _ c9
  · exact clamp_some_clamped _ c10
  · exact clamp_some_clamped _ c11

theorem normalizeVariant_fix (env : Env) (i : ℕ) (v : Variant) (h : GoodVariant v) :
    normalizeVariant env i (toRawVariant v) = v := by
  obtain ⟨h1, h2, h3⟩ := h
  unfold normalizeVariant toRawVariant
  apply Variant.ext
  · exact jsOrSO_some_ne _ h1 _
  · rw [jsOrSO_some_ne _ h2 _, h3]
  · exact jsOrSO_self_empty _
  · exact jsOrSO_self_empty _

theorem mapWithIndex_variant_fix (env : Env) :
    ∀ (n : ℕ) (l : List Variant), (∀ v ∈ l, GoodVariant v) →
      mapWithIndex (normalizeVariant env) n (l.map toRawVariant) = l := by
  intro n l
  induction l generalizing n with
  | nil => intro _; rfl
  | cons v t ih =>
    intro h
    rw [List.map_cons, mapWithIndex,
      normalizeVariant_fix env n v (h v (List.mem_cons_self v t)),
      ih (n + 1) (fun y hy => h y (List.mem_cons_of_mem v hy))]

theorem normalizeExperiment_fix (env : Env) (e : Experiment) (h : GoodExperiment e) :
    normalizeExperiment env (toRawExperiment e) = e := by
  obtain ⟨h1, h2, h3, h4, h5, h6, h7, h8, h9, h10, h11⟩ := h
  unfold normalizeExperiment toRawExperiment
  have hstage : jsOrSO (some e.funnel_stage_targeted)
      (jsOrSO (none : Option String) "PERMISSION") = e.funnel_stage_targeted :=
    jsOrSO_some_ne _ h8 _
  cases hv : e.variants with
  | nil => exact absurd hv h10
  | cons v t =>
    apply Experiment.ext
    · exact jsOrSO_some_ne _ h1 _
    · dsimp only
      rw [jsOrSO_some_ne _ h2 _, h3]
    · exact jsOrSO_some_ne _ h4 _
    · dsimp only
      rw [jsOrSO_self_empty, h5]
    · dsimp only
      rw [jsOrSO_self_empty, h6]
    · exact jsOrSO_some_ne _ h7 _
    · exact hstage
    · show jsOrSO (some e.primary_metric) _ = e.primary_metric
      exact jsOrSO_some_ne _ h9 _
    · show clampNonNegInt ((e.required_sample_size_seen : ℕ) : ℚ) =
        e.required_sample_size_seen
      exact clampNonNegInt_natCast _
    · dsimp only [List.map_cons]
      show mapWithIndex (normalizeVariant env) 0
        (toRawVariant v :: t.map toRawVariant) = e.variants
      rw [hv,
        show toRawVariant v :: t.map toRawVariant = (v :: t).map toRawVariant from rfl]
      exact mapWithIndex_variant_fix env 0 (v :: t)
        (fun x hx => h11 x (by rw [hv]; exact hx))

theorem getD_or_lane (b : Bool) :
    ((some b).getD false || decide ((none : Option String) = some "old")) = b := by
  cases b <;> rfl

theorem normalizeProspect_fix (env : Env) (d : String) (p : Prospect)
    (h : GoodProspect p) : normalizeProspect env d (toRawProspect p) = p := by
  obtain ⟨h1, h2, h3, h4, h5, h6, h7⟩ := h
  unfold normalizeProspect toRawProspect
  apply Prospect.ext
  · exact jsOrSO_some_ne _ h1 _
  · dsimp only
    rw [jsOrSO_some_ne _ h2 _, h3]
  · exact jsTrim_jsOrSO_self _ h4
  · exact jsTrim_jsOrSO_self _ h5
  · exact jsOrSO_some_ne _ h6 _
  · exact getD_or_lane _
  · dsimp only
    rw [if_pos h7]

theorem normalizeAccount_fix (i : ℕ) (a : Account) (h : GoodAccount a) :
    normalizeAccount i (toRawAccount a) = a := by
  obtain ⟨h1, h2, h3⟩ := h
  unfold normalizeAccount toRawAccount toRawGoals
  apply Account.ext
  · exact jsOrSO_some_ne _ h1 _
  · dsimp only
    rw [jsOrSO_some_ne _ h2 _, h3]
  · apply Goals.ext
    · exact clampNonNegInt_natCast _
    · exact clampNonNegInt_natCast _
    · exact clampNonNegInt_natCast _

theorem mapWithIndex_account_fix :
    ∀ (n : ℕ) (l : List Account), (∀ a ∈ l, GoodAccount a) →
      mapWithIndex normalizeAccount n (l.map toRawAccount) = l := by
  intro n l
  induction l generalizing n with
  | nil => intro _; rfl
  | cons a t ih =>
    intro h
    rw [List.map_cons, mapWithIndex,
      normalizeAccount_fix n a (h a (List.mem_cons_self a t)),
      ih (n + 1) (fun y hy => h y (List.mem_cons_of_mem a hy))]

theorem clampNonNegNumber_of_nonneg (q : ℚ) (h : 0 ≤ q) :
    clampNonNegNumber q = q := max_eq_right h

theorem normalizeConfig_fix (c : Config) (h : GoodConfig c) :
    normalizeConfig (some (toRawConfig c)) = c := by
  obtain ⟨hne, hacc, t1, t2, t3, t4, t5, t6, t7, t8, t9⟩ := h
  unfold normalizeConfig toRawConfig toRawTargets
  apply Config.ext
  · rfl
  · exact decide_ne_some_false _
  · apply KpiTargets.ext
    · exact clampNonNegNumber_of_nonneg _ t1
    · exact clampNonNegNumber_of_nonneg _ t2
    · exact clampNonNegNumber_of_nonneg _ t3
    · exact clampNonNegNumber_of_nonneg _ t4
    · exact clampNonNegNumber_of_nonneg _ t5
    · exact clampNonNegNumber_of_nonneg _ t6
    · exact clampNonNegNumber_of_nonneg _ t7
    · exact clampNonNegNumber_of_nonneg _ t8
    · exact clampNonNegNumber_of_nonneg _ t9
  · cases hca : c.accounts with
    | nil => exact absurd hca hne
    | cons a t =>
      exact mapWithIndex_account_fix 0 (a :: t)
        (fun x hx => hacc x (by rw [hca]; exact hx))

theorem normalizeState_fix (env : Env) (s : AppState) (h : GoodState s) :
    normalizeState env (toRawState s) = s := by
  obtain ⟨hc, hl, he, hp⟩ := h
  unfold normalizeState toRawState
  apply AppState.ext
  · exact normalizeConfig_fix _ hc
  · show (s.logs.map toRawLog).map (normalizeLog env _) = s.logs
    rw [List.map_map]
    exact map_eq_self_of _ _ (fun x hx => normalizeLog_fix env _ x (hl x hx))
  · show (s.experiments.map toRawExperiment).map (normalizeExperiment env) = s.experiments
    rw [List.map_map]
    exact map_eq_self_of _ _ (fun x hx => normalizeExperiment_fix env x (he x hx))
  · show (s.prospects.map toRawProspect).map (normalizeProspect env _) = s.prospects
    rw [List.map_map]
    exact map_eq_self_of _ _ (fun x hx => normalizeProspect_fix env _ x (hp x hx))
  · apply Ui.ext
    exact decide_ne_some_false _

/-! ## Claim C4: the normalizer establishes the invariants -/

theorem jsTrim_append_ne (pre x : String) (c : Char) (rest : List Char)
    (hpre : pre.data = c :: rest) (hc : isJsWs c = false) : jsTrim (pre ++ x) ≠ "" :=
  jsTrim_ne_empty_of_head _ c (rest ++ x.data)
    (by rw [String.data_append, hpre]; rfl) hc

theorem primaryMetricForStage_ne (stage : String) : primaryMetricForStage stage ≠ "" := by
  unfold primaryMetricForStage
  split_ifs <;> simp

theorem goodLog_normalize (env : Env) (d : String) (hf : env.freshId ≠ "")
    (ht : env.today ≠ "") (hd : d ≠ "") (raw : RawLog) :
    GoodLog (normalizeLog env d raw) := by
  unfold GoodLog normalizeLog
  refine ⟨jsOrSO_ne_of_fallback _ _ hf, jsOrSO_ne_of_fallback _ _ ht,
    jsOrSO_ne_of_fallback _ _ (jsOrSO_ne_of_fallback _ _ hd),
    jsTrim_idem _, jsTrim_idem _,
    isClampedNat_natCast _, isClampedNat_natCast _, isClampedNat_natCast _,
    isClampedNat_natCast _, isClampedNat_natCast _, isClampedNat_natCast _,
    isClampedNat_natCast _, isClampedNat_natCast _, isClampedNat_natCast _,
    isClampedNat_natCast _, isClampedNat_natCast _⟩

theorem goodVariant_normalize (env : Env) (hf : env.freshId ≠ "") (i : ℕ)
    (v : RawVariant) (hok : strOK v.name) : GoodVariant (normalizeVariant env i v) := by
  unfold GoodVariant normalizeVariant
  refine ⟨jsOrSO_ne_of_fallback _ _ hf, ?_, jsTrim_idem _⟩
  exact jsTrim_jsOrSO_ne _ _ hok (jsTrim_append_ne "Variant " _ 'V' _ rfl rfl)

theorem goodExperiment_normalize (env : Env) (hf : env.freshId ≠ "")
    (hn : env.nowIso ≠ "") (e : RawExperiment) (hname : strOK e.name)
    (hlabel : strOK e.messageLabel)
    (hvars : ∀ vs, e.variants = some vs → ∀ v ∈ vs, strOK v.name) :
    GoodExperiment (normalizeExperiment env e) := by
  unfold GoodExperiment normalizeExperiment
  refine ⟨jsOrSO_ne_of_fallback _ _ hf, ?_, jsTrim_idem _,
    jsOrSO_ne_of_fallback _ _ (by simp), jsTrim_idem _, jsTrim_idem _,
    jsOrSO_ne_of_fallback _ _ hn,
    jsOrSO_ne_of_fallback _ _ (jsOrSO_ne_of_fallback _ _ (by simp)),
    jsOrSO_ne_of_fallback _ _ (primaryMetricForStage_ne _), ?_, ?_⟩
  · exact jsTrim_jsOrSO_ne _ _ hname
      (jsTrim_ne_empty_of_head _ 'U' "ntitled Experiment".data rfl rfl)
  · cases hev : e.variants with
    | none =>
      dsimp only
      split
      · exact List.cons_ne_nil _ _
      · exact List.cons_ne_nil _ _
    | some l =>
      cases l with
      | nil =>
        dsimp only
        split
        · exact List.cons_ne_nil _ _
        · exact List.cons_ne_nil _ _
      | cons v t => exact mapWithIndex_ne_nil _ _ _ _
  · intro x hx
    rcases hev : e.variants with - | l
    · rw [hev] at hx
      dsimp only at hx
      rcases hsplit : (jsTruthyS e.messageText || jsTruthyS e.messageLabel) with - | -
      · rw [hsplit] at hx
        simp only [if_false, Bool.false_eq_true] at hx
        rcases List.mem_singleton.mp hx with rfl
        exact ⟨hf, by simp, rfl⟩
      · rw [hsplit] at hx
        simp only [if_true] at hx
        rcases List.mem_singleton.mp hx with rfl
        refine ⟨hf, ?_, jsTrim_idem _⟩
        exact jsTrim_jsOrSO_ne _ _ hlabel
          (jsTrim_ne_empty_of_head _ 'V' "ariant A".data rfl rfl)
    · rw [hev] at hx
      cases l with
      | nil =>
        dsimp only at hx
        rcases hsplit : (jsTruthyS e.messageText || jsTruthyS e.messageLabel) with - | -
        · rw [hsplit] at hx
          simp only [if_false, Bool.false_eq_true] at hx
          rcases List.mem_singleton.mp hx with rfl
          exact ⟨hf, by simp, rfl⟩
        · rw [hsplit] at hx
          simp only [if_true] at hx
          rcases List.mem_singleton.mp hx with rfl
          refine ⟨hf, ?_, jsTrim_idem _⟩
          exact jsTrim_jsOrSO_ne _ _ hlabel
            (jsTrim_ne_empty_of_head _ 'V' "ariant A".data rfl rfl)
      | cons v t =>
        obtain ⟨i, a, ha, rfl⟩ := mem_mapWithIndex _ _ _ _ hx
        exact goodVariant_normalize env hf i a (hvars (v :: t) hev a ha)

theorem goodProspect_normalize (env : Env) (d : String) (hf : env.freshId ≠ "")
    (hd : d ≠ "") (p : RawProspect) (hok : strOK p.name) :
    GoodProspect (normalizeProspect env d p) := by
  unfold GoodProspect normalizeProspect
  refine ⟨jsOrSO_ne_of_fallback _ _ hf, ?_, jsTrim_idem _, jsTrim_idem _,
    jsTrim_idem _, jsOrSO_ne_of_fallback _ _ (jsOrSO_ne_of_fallback _ _ hd), ?_⟩
  · exact jsTrim_jsOrSO_ne _ _ hok
      (jsTrim_ne_empty_of_head _ 'U' "ntitled".data rfl rfl)
  · cases p.stage with
    | none => rfl
    | some st =>
      dsimp only
      split
      · assumption
      · rfl

theorem goodAccount_normalize (i : ℕ) (a : RawAccount) (hok : strOK a.name) :
    GoodAccount (normalizeAccount i a) := by
  unfold GoodAccount normalizeAccount
  refine ⟨jsOrSO_ne_of_fallback _ _ (append_ne_empty_left _ _ 'a' _ rfl), ?_,
    jsTrim_idem _⟩
  exact jsTrim_jsOrSO_ne _ _ hok (jsTrim_append_ne "Account " _ 'A' _ rfl rfl)

theorem strOK_defaults : ∀ a ∈ DEFAULT_ACCOUNTS, strOK a.name := by
  intro a ha
  have htrim1 : jsTrim "Account 1" = "Account 1" := rfl
  have htrim2 : jsTrim "Account 2" = "Account 2" := rfl
  rcases List.mem_cons.mp ha with rfl | ha2
  · intro t ht hne
    cases ht
    rw [htrim1]
    exact hne
  · rcases List.mem_cons.mp ha2 with rfl | hnil
    · intro t ht hne
      cases ht
      rw [htrim2]
      exact hne
    · cases hnil

theorem clampNonNegNumber_nonneg (q : ℚ) : 0 ≤ clampNonNegNumber q := le_max_left 0 q

theorem goodConfig_normalize (config : Option RawConfig)
    (hnames : ∀ l, config.bind RawConfig.accounts = some l → ∀ a ∈ l, strOK a.name) :
    GoodConfig (normalizeConfig config) := by
  unfold GoodConfig normalizeConfig
  refine ⟨?_, ?_, clampNonNegNumber_nonneg _, clampNonNegNumber_nonneg _,
    clampNonNegNumber_nonneg _, clampNonNegNumber_nonneg _, clampNonNegNumber_nonneg _,
    clampNonNegNumber_nonneg _, clampNonNegNumber_nonneg _, clampNonNegNumber_nonneg _,
    clampNonNegNumber_nonneg _⟩
  · cases hca : config.bind RawConfig.accounts with
    | none => exact mapWithIndex_ne_nil _ _ _ _
    | some l =>
      cases l with
      | nil => exact mapWithIndex_ne_nil _ _ _ _
      | cons a t => exact mapWithIndex_ne_nil _ _ _ _
  · intro x hx
    cases hca : config.bind RawConfig.accounts with
    | none =>
      rw [hca] at hx
      dsimp only at hx
      obtain ⟨i, a, ha, rfl⟩ := mem_mapWithIndex _ _ _ _ hx
      exact goodAccount_normalize i a (strOK_defaults a ha)
    | some l =>
      rw [hca] at hx
      cases l with
      | nil =>
        dsimp only at hx
        obtain ⟨i, a, ha, rfl⟩ := mem_mapWithIndex _ _ _ _ hx
        exact goodAccount_normalize i a (strOK_defaults a ha)
      | cons a t =>
        dsimp only at hx
        obtain ⟨i, b, hb, rfl⟩ := mem_mapWithIndex _ _ _ _ hx
        exact goodAccount_normalize i b (hnames (a :: t) hca b hb)

theorem defaultAccountId_ne (c : Config) :
    (match c.accounts.head? with
     | some a => jsOrStr a.id "account_1"
     | none => "account_1") ≠ "" := by
  cases c.accounts.head? with
  | none => simp
  | some a =>
    show jsOrStr a.id "account_1" ≠ ""
    unfold jsOrStr
    split
    · simp
    · assumption

theorem goodState_normalize (env : Env) (s : RawState) (hf : env.freshId ≠ "")
    (ht : env.today ≠ "") (hn : env.nowIso ≠ "") (hnames : GoodRawNames s) :
    GoodState (normalizeState env s) := by
  obtain ⟨hna, hne, hnp⟩ := hnames
  unfold GoodState normalizeState
  refine ⟨?_, ?_, ?_, ?_⟩
  · apply goodConfig_normalize
    intro l hl a ha
    cases hsc : s.config with
    | none => rw [hsc] at hl; cases hl
    | some c =>
      rw [hsc] at hl
      exact hna c hsc l hl a ha
  · intro x hx
    obtain ⟨raw, hraw, rfl⟩ := List.mem_map.mp hx
    exact goodLog_normalize env _ hf ht (defaultAccountId_ne _) raw
  · intro x hx
    obtain ⟨raw, hraw, rfl⟩ := List.mem_map.mp hx
    cases hse : s.experiments with
    | none =>
      rw [hse] at hraw
      cases hraw
    | some l =>
      rw [hse] at hraw
      obtain ⟨hn1, hn2, hn3⟩ := hne l hse raw hraw
      exact goodExperiment_normalize env hf hn raw hn1 hn2 hn3
  · intro x hx
    obtain ⟨raw, hraw, rfl⟩ := List.mem_map.mp hx
    cases hsp : s.prospects with
    | none =>
      rw [hsp] at hraw
      cases hraw
    | some l =>
      rw [hsp] at hraw
      exact goodProspect_normalize env _ hf (defaultAccountId_ne _) raw
        (hnp l hsp raw hraw)

/-- C4 (amended): the schema normalizer is idempotent on every raw input
whose name-like fields (account name, experiment name, messageLabel, variant
name, prospect name) are not whitespace-only nonempty strings: normalizing
an already-normalized state is a no-op fixed point.  (As stated, for
arbitrary raw input, the claim fails: see the counterexample, where a
whitespace-only account name is trimmed to the empty string by the first
pass and replaced by the positional default name by the second.)  The
impure id and date primitives are modelled by the environment, assumed to
produce nonempty strings as crypto.randomUUID and toISODate(new Date()) do. -/
theorem claim_C4 (env : Env) (s : RawState) (hf : env.freshId ≠ "")
    (ht : env.today ≠ "") (hn : env.nowIso ≠ "") (hnames : GoodRawNames s) :
    normalizeState env (toRawState (normalizeState env s)) = normalizeState env s :=
  normalizeState_fix env (normalizeState env s)
    (goodState_normalize env s hf ht hn hnames)

/-- Witness for C4: idempotence at the all-absent raw state and a concrete
environment. -/
theorem claim_C4_witness :
    normalizeState envX (toRawState (normalizeState envX rawEmptyState)) =
      normalizeState envX rawEmptyState :=
  claim_C4 envX rawEmptyState (by simp [envX]) (by simp [envX]) (by simp [envX])
    (by refine ⟨?_, ?_, ?_⟩ <;> · intro l hl; cases hl)

/-- Counterexample to C4 as stated: a raw state whose single account is named
by a lone space is not a fixed point of a second normalization; the first
pass trims the name to the empty string, and the second pass replaces the
now-empty name with the default Account 1. -/
theorem claim_C4_cex :
    (normalizeState envX rawBadName).config.accounts.map Account.name = [""] ∧
    (normalizeState envX (toRawState (normalizeState envX rawBadName))).config.accounts.map
      Account.name = ["Account 1"] ∧
    normalizeState envX (toRawState (normalizeState envX rawBadName)) ≠
      normalizeState envX rawBadName := by
  refine ⟨rfl, rfl, ?_⟩
  intro h
  have h2 := congrArg (fun st => st.config.accounts.map Account.name) h
  have e1 : (normalizeState envX rawBadName).config.accounts.map Account.name = [""] := rfl
  have e2 : (normalizeState envX (toRawState (normalizeState envX rawBadName))).config.accounts.map
      Account.name = ["Account 1"] := rfl
  dsimp only at h2
  rw [e1, e2] at h2
  simp at h2

end DmLab
